import Mathlib

/-!
# Verification of the fluid-simulation validation-and-derivation pipeline

Shallow embedding of the core pipeline of the repository:

* `src/data_validators.py` — `validate_navier_stokes_data`, `validate_initial_data`
* `src/navier_stokes_validator.py` — the second `validate_navier_stokes_data`
* `src/fluid_calculators.py` — `calculate_fluid_properties_at_timestep`
* `src/fluid_data_processor.py` — `process_fluid_data`

Modelling conventions (stated once here, referenced below):

* Python/JSON scalar values are modelled by `Val` (ints, finite floats as exact
  rationals, bools, and the IEEE special values NaN, +Inf, -Inf, which Python's
  `json` module accepts as literals).  Finite float arithmetic is modelled
  exactly over `ℚ`; rounding, overflow of finite operations, signed zeros and
  int64 width are outside the model.
* JSON documents are modelled by `JVal`.  Object keys are assumed unique (as
  produced by `json.load`).  String payloads in numeric positions are modelled
  as fatal (`TypeError`/`ValueError`) where numpy arithmetic would reject them.
* Every Python exception caught by the sources' blanket `except` clauses
  returns `None`; such paths are modelled as a `raised` error value.
* The two real-power operations of the sources — `x ** (1/gamma)` applied
  elementwise by the calculator and `initial_density ** gamma` in the initial
  validator — are not rational-closed, so they are passed in as explicit
  function parameters (`apow`, `fpow`); every theorem below either holds for
  all instantiations or states its hypotheses on them explicitly.
-/

/- Batteries seals the `Rat` field operations against definitional unfolding;
the concrete witnesses below evaluate the pipeline on closed inputs by kernel
reduction, which needs them unfoldable. -/
attribute [local semireducible] Rat.mul Rat.add Rat.inv Rat.sub

/-- A Python/numpy runtime scalar: int, finite float (exact rational), bool,
or one of the IEEE special float values. -/
inductive Val where
  | vi (n : ℤ)
  | vf (q : ℚ)
  | vb (b : Bool)
  | nan
  | inf
  | ninf
deriving DecidableEq, Repr

namespace Val

/-- The finite numeric value of a scalar, if it has one (`True` counts as 1). -/
def toQ : Val → Option ℚ
  | vi n => some (n : ℚ)
  | vf q => some q
  | vb b => some (if b then 1 else 0)
  | _ => none

/-- `math.isnan` / `np.isnan`. -/
def isNaN : Val → Bool
  | nan => true
  | _ => false

/-- `np.isinf` (either sign). -/
def isInfinite : Val → Bool
  | inf => true
  | ninf => true
  | _ => false

/-- Python/numpy `<` on scalars: any comparison with NaN is `False`. -/
def lt : Val → Val → Bool
  | nan, _ => false
  | _, nan => false
  | inf, _ => false
  | _, inf => true
  | ninf, ninf => false
  | ninf, _ => true
  | _, ninf => false
  | a, b =>
    match a.toQ, b.toQ with
    | some x, some y => decide (x < y)
    | _, _ => false

/-- Python/numpy `==` on scalars: NaN is not equal to anything. -/
def numEq : Val → Val → Bool
  | inf, inf => true
  | ninf, ninf => true
  | a, b =>
    match a.toQ, b.toQ with
    | some x, some y => decide (x = y)
    | _, _ => false

/-- Python/numpy `<=` on scalars. -/
def le (a b : Val) : Bool := a.lt b || a.numEq b

/-- Float addition with special-value propagation (used by `np.mean`). -/
def fadd : Val → Val → Val
  | nan, _ => nan
  | _, nan => nan
  | inf, ninf => nan
  | ninf, inf => nan
  | inf, _ => inf
  | _, inf => inf
  | ninf, _ => ninf
  | _, ninf => ninf
  | a, b =>
    match a.toQ, b.toQ with
    | some x, some y => vf (x + y)
    | _, _ => nan

/-- Float multiplication with special-value propagation. -/
def fmul (a b : Val) : Val :=
  if a.isNaN || b.isNaN then nan
  else
    match a.toQ, b.toQ with
    | some x, some y => vf (x * y)
    | some x, none =>
      if x = 0 then nan
      else if (0 < x) = (b = inf) then inf else ninf
    | none, some y =>
      if y = 0 then nan
      else if (0 < y) = (a = inf) then inf else ninf
    | none, none => if (a = inf) = (b = inf) then inf else ninf

/-- Numpy float division: `x/0` gives `±Inf` (or NaN for `0/0`) under
`errstate(ignore)`; `np.float64` division never raises. -/
def fdiv (a b : Val) : Val :=
  if a.isNaN || b.isNaN then nan
  else
    match a.toQ, b.toQ with
    | some x, some y =>
      if y = 0 then (if x = 0 then nan else if x < 0 then ninf else inf)
      else vf (x / y)
    | some _, none => vf 0
    | none, some y =>
      if (0 ≤ y) = (a = inf) then inf else ninf
    | none, none => nan
end Val

/-- `1e-9`, the clamp floor and the density epsilon of the calculator. -/
def eps9 : ℚ := 1 / 1000000000

/-- `np.maximum(v, 1e-9)` elementwise: NaN propagates, result is a float. -/
def npMaximum (v : Val) (e : ℚ) : Val :=
  match v with
  | .nan => .nan
  | .inf => .inf
  | .ninf => .vf e
  | v =>
    match v.toQ with
    | some q => .vf (max q e)
    | none => .nan

/-- The in-place scrub of `fluid_calculators.py` lines 69-71 / 79-81:
set NaN to 0, then ±Inf to 0, then negative values to 0. -/
def sanitize (v : Val) : Val :=
  if v.isNaN then .vf 0
  else if v.isInfinite then .vf 0
  else if v.lt (.vf 0) then .vf 0
  else v

/-- A value is a finite, non-negative number. -/
def finiteNonneg (v : Val) : Prop :=
  match v with
  | .vi n => 0 ≤ n
  | .vf q => 0 ≤ q
  | .vb _ => True
  | _ => False

instance : DecidablePred finiteNonneg := by
  intro v
  unfold finiteNonneg
  cases v <;> infer_instance

theorem sanitize_finiteNonneg (v : Val) : finiteNonneg (sanitize v) := by
  cases v with
  | vi n =>
    by_cases h : n < 0 <;>
      simp [sanitize, Val.isNaN, Val.isInfinite, Val.lt, Val.toQ, finiteNonneg, h] <;> omega
  | vf q =>
    by_cases h : q < 0 <;>
      simp [sanitize, Val.isNaN, Val.isInfinite, Val.lt, Val.toQ, finiteNonneg, h] <;> linarith
  | vb b =>
    cases b <;> simp [sanitize, Val.isNaN, Val.isInfinite, Val.lt, Val.toQ, finiteNonneg] <;>
      norm_num [finiteNonneg]
  | nan => simp [sanitize, Val.isNaN, finiteNonneg]
  | inf => simp [sanitize, Val.isNaN, Val.isInfinite, finiteNonneg]
  | ninf => simp [sanitize, Val.isNaN, Val.isInfinite, finiteNonneg]

/-- A JSON-shaped Python value as produced by `json.load`: `null`, booleans,
ints, finite floats, the NaN/Infinity literals, strings, lists and dicts.
Dict keys are assumed unique. -/
inductive JVal where
  | jnull
  | jbool (b : Bool)
  | jint (n : ℤ)
  | jfloat (q : ℚ)
  | jnan
  | jinf
  | jninf
  | jstr (s : String)
  | jarr (xs : List JVal)
  | jobj (kvs : List (String × JVal))
deriving Repr

namespace JVal

/-- The numeric runtime value of a JSON leaf, if it is a number
(`isinstance(x, (int, float))` in Python terms, bools included). -/
def jnumVal : JVal → Option Val
  | jint n => some (.vi n)
  | jfloat q => some (.vf q)
  | jbool b => some (.vb b)
  | jnan => some .nan
  | jinf => some .inf
  | jninf => some .ninf
  | _ => none

/-- Python `len(x)`: defined for lists, strings and dicts, `TypeError`
(= `none`) otherwise. -/
def pyLen : JVal → Option ℕ
  | jarr xs => some xs.length
  | jstr s => some s.length
  | jobj kvs => some kvs.length
  | _ => none

/-- Python `k in x` for a string key `k`: key membership for dicts, element
equality for lists, `TypeError` (= `none`) for numbers/None.  For strings the
real operator is a substring test; every validator path reaching it on a
string rejects the document either way (the following subscript raises), so
it is modelled as `false`. -/
def pyIn (k : String) : JVal → Option Bool
  | jobj kvs => some (kvs.any (fun p => p.1 == k))
  | jarr xs => some (xs.any (fun v => match v with | jstr t => t == k | _ => false))
  | jstr _ => some false
  | _ => none

/-- Python `x[k]` for a string key: dict lookup; `TypeError`/`KeyError`
(= `none`) otherwise. -/
def pySub (d : JVal) (k : String) : Option JVal :=
  match d with
  | jobj kvs => (kvs.find? (fun p => p.1 == k)).map (fun p => p.2)
  | _ => none

/-- Python `x.get(k, dflt)` on a dict. -/
def pyGet (d : JVal) (k : String) (dflt : JVal) : JVal :=
  match pySub d k with
  | some v => v
  | none => dflt

mutual
/-- The shape `np.array(x)` would have, or `none` when the conversion raises
(ragged nesting).  Non-list leaves (numbers, strings, dicts, None) are 0-d. -/
def npShape : JVal → Option (List ℕ)
  | jarr xs =>
    match npShapes xs with
    | none => none
    | some [] => some [0]
    | some (s :: rest) =>
      if rest.all (fun t => t == s) then some ((rest.length + 1) :: s) else none
  | _ => some []

/-- Shapes of a list of values; `none` if any element is ragged. -/
def npShapes : List JVal → Option (List (List ℕ))
  | [] => some []
  | x :: xs =>
    match npShape x, npShapes xs with
    | some s, some l => some (s :: l)
    | _, _ => none
end
end JVal

mutual
/-- The leaves of a JSON value in C (row-major, depth-first) order — the
order `ndarray.flatten()` produces.  For rectangular data the number of
leaves equals `np.size`. -/
def jleaves : JVal → List JVal
  | .jarr xs => jleavesList xs
  | v => [v]

def jleavesList : List JVal → List JVal
  | [] => []
  | x :: xs => jleaves x ++ jleavesList xs
end

namespace JVal

/-- Python `d > 0` on a JSON value: numeric comparison (NaN gives `False`),
`TypeError` (= `none`) for non-numbers. -/
def pyGtZero : JVal → Option Bool
  | jint n => some (decide (0 < n))
  | jfloat q => some (decide (0 < q))
  | jbool b => some b
  | jnan => some false
  | jinf => some true
  | jninf => some false
  | _ => none

/-- `isinstance(x, (int, float)) and x > 0` — never raises. -/
def pyNumGtZero : JVal → Bool
  | jint n => decide (0 < n)
  | jfloat q => decide (0 < q)
  | jbool b => b
  | jnan => false
  | jinf => true
  | jninf => false
  | _ => false

/-- `all(d > 0 for d in gs)` with Python's short-circuiting: stops at the
first `False` without evaluating further terms; raises (`none`) at the first
non-numeric element.  Iterating a string/dict yields characters/keys, whose
comparison with `0` raises unless the iterable is empty. -/
def allGtZeroList : List JVal → Option Bool
  | [] => some true
  | x :: xs =>
    match pyGtZero x with
    | none => none
    | some false => some false
    | some true => allGtZeroList xs

/-- `all(d > 0 for d in gs)` over an arbitrary Python iterable. -/
def pyAllGtZero : JVal → Option Bool
  | jarr xs => allGtZeroList xs
  | jstr s => if s.length = 0 then some true else none
  | jobj kvs => if kvs.length = 0 then some true else none
  | _ => none

/-- `all(isinstance(d, int) and d > 0 for d in gs)` over a list — the grid
check of `navier_stokes_validator.py` (Python bools are `int` instances). -/
def isIntPos : JVal → Bool
  | jint n => decide (0 < n)
  | jbool b => b
  | _ => false

/-- A dimension argument of `ndarray.reshape`: Python ints (and bools) are
accepted, floats raise `TypeError`.  Non-positive ints (numpy's `-1`
inference) never reach the reshape calls modelled here — the validators admit
only positive grid entries — and are mapped to `none`. -/
def pyDim : JVal → Option ℕ
  | jint n => if 0 < n then some n.toNat else none
  | jbool b => if b then some 1 else none
  | _ => none

/-- `float(x)`: numbers convert (ints become floats), a size-1 numpy array
unwraps, anything else is modelled as raising (numeric strings are outside
the modelled domain). -/
def pyFloat : JVal → Option Val
  | jint n => some (.vf (n : ℚ))
  | jfloat q => some (.vf q)
  | jbool b => some (.vf (if b then 1 else 0))
  | jnan => some .nan
  | jinf => some .inf
  | jninf => some .ninf
  | jarr [x] => pyFloat x
  | _ => none

/-- `isinstance(x, list)` destructuring: the element list of a Python list. -/
def asList : JVal → Option (List JVal)
  | jarr xs => some xs
  | _ => none

/-- `isinstance(x, dict)` destructuring: the entries of a Python dict. -/
def asObj : JVal → Option (List (String × JVal))
  | jobj kvs => some kvs
  | _ => none

/-- `a, b, c = xs` unpacking of a three-element list. -/
def asTriple : JVal → Option (JVal × JVal × JVal)
  | jarr [a, b, c] => some (a, b, c)
  | _ => none

/-- `not isinstance(h[0], list) or len(h[0]) == 0` for a history `h` already
known to have positive `len` — the first-record check of both validators
(`not h[0]` and `len(h[0]) == 0` agree on lists).  `none` models a raise:
`h[0]` on a dict (`KeyError`) or on an empty string (`IndexError`). -/
def firstHistBad : JVal → Option Bool
  | jarr (jarr v0s :: _) => some (decide (v0s.length = 0))
  | jarr (_ :: _) => some true
  | jarr [] => none
  | jstr s => if s.length = 0 then none else some true
  | _ => none
end JVal

/-- All leaves as numeric values, or `none` if any leaf is non-numeric
(numpy arithmetic on such an array raises `TypeError`). -/
def jnumList : List JVal → Option (List Val)
  | [] => some []
  | x :: xs =>
    match JVal.jnumVal x, jnumList xs with
    | some v, some vs => some (v :: vs)
    | _, _ => none

/-- `np.mean` of a flat list of scalars: sum (with special-value
propagation) divided by the length. -/
def npMean (ps : List Val) : Val :=
  Val.fdiv (ps.foldl Val.fadd (.vf 0)) (.vf (ps.length : ℚ))

/-- The tuple returned by both Navier-Stokes validators:
`(time_points, nodes_coords, grid_shape, dx, dy, dz, velocity_history,
pressure_history, num_x, num_y, num_z)`. -/
structure NSTuple where
  time_points : List JVal
  nodes_coords : JVal
  grid_shape : List JVal
  dx : JVal
  dy : JVal
  dz : JVal
  velocity_history : List JVal
  pressure_history : List JVal
  numX : JVal
  numY : JVal
  numZ : JVal
deriving Repr

/-- The distinct failure exits of `data_validators.validate_navier_stokes_data`
(one per `print`/`return None` site; `raised` collects every exception path —
all the source's `except` clauses return `None`). -/
inductive DvErr where
  | missingTimePoints
  | emptyTimePoints
  | missingMeshInfo
  | missingMeshKey (k : String)
  | missingVelocityHistory
  | missingPressureHistory
  | lenInconsistent
  | emptyFirstVelocity
  | emptyFirstPressure
  | invalidGridShape
  | invalidVoxelSizes
  | nodeCountMismatch
  | nodeColumnsBad
  | raised
deriving DecidableEq, Repr


namespace DataValidators

open JVal

/-- Lift an optional value into the validator, mapping a Python exception
(`none`) to the `raised` rejection (all the source's `except` clauses
return `None`). -/
def req {α : Type} : Option α → Except DvErr α
  | some a => .ok a
  | none => .error .raised

/-- Shallow embedding of `data_validators.validate_navier_stokes_data`
(`src/data_validators.py` lines 3-100), check for check in source order.
Notable source facts reflected here: `time_points` emptiness is decided by
`len` (line 20); history lengths are compared (line 52) before the
grid-shape/voxel-size validity checks (lines 65-75); the grid-shape check
does not require integer entries (`all(d > 0 ...)`, line 65); the column
check's bare `return` (line 84) still yields `None`. -/
def validate_navier_stokes_data (d : JVal) : Except DvErr NSTuple :=
  match pyIn "time_points" d with
  | none => .error .raised
  | some false => .error .missingTimePoints
  | some true =>
  match pySub d "time_points" with
  | none => .error .raised
  | some tpJ =>
  -- len() raises TypeError on the 0-d array a non-list produces
  match asList tpJ with
  | none => .error .raised
  | some tps =>
  -- np.array(...) raises on ragged data
  if (npShape (.jarr tps)).isSome = false then .error .raised
  else if tps.length = 0 then .error .emptyTimePoints
  else
  match pyIn "mesh_info" d with
  | none => .error .raised
  | some false => .error .missingMeshInfo
  | some true =>
  match pySub d "mesh_info" with
  | none => .error .raised
  | some mesh =>
  match pyIn "nodes_coords" mesh with
  | none => .error .raised
  | some false => .error (.missingMeshKey "nodes_coords")
  | some true =>
  match pyIn "grid_shape" mesh with
  | none => .error .raised
  | some false => .error (.missingMeshKey "grid_shape")
  | some true =>
  match pyIn "dx" mesh with
  | none => .error .raised
  | some false => .error (.missingMeshKey "dx")
  | some true =>
  match pyIn "dy" mesh with
  | none => .error .raised
  | some false => .error (.missingMeshKey "dy")
  | some true =>
  match pyIn "dz" mesh with
  | none => .error .raised
  | some false => .error (.missingMeshKey "dz")
  | some true =>
  match pySub mesh "nodes_coords" with
  | none => .error .raised
  | some nodesJ =>
  -- line 35: np.array(mesh_info['nodes_coords']) raises on ragged data
  match npShape nodesJ with
  | none => .error .raised
  | some nodesShape =>
  match pySub mesh "grid_shape" with
  | none => .error .raised
  | some gsJ =>
  match pySub mesh "dx" with
  | none => .error .raised
  | some dxJ =>
  match pySub mesh "dy" with
  | none => .error .raised
  | some dyJ =>
  match pySub mesh "dz" with
  | none => .error .raised
  | some dzJ =>
  match pyIn "velocity_history" d with
  | none => .error .raised
  | some false => .error .missingVelocityHistory
  | some true =>
  match pySub d "velocity_history" with
  | none => .error .raised
  | some vhJ =>
  match pyIn "pressure_history" d with
  | none => .error .raised
  | some false => .error .missingPressureHistory
  | some true =>
  match pySub d "pressure_history" with
  | none => .error .raised
  | some phJ =>
  -- line 52: len(velocity_history) == len(time_points) and
  --          len(pressure_history) == len(time_points), short-circuiting
  match pyLen vhJ with
  | none => .error .raised
  | some lv =>
  if lv ≠ tps.length then .error .lenInconsistent
  else
  match pyLen phJ with
  | none => .error .raised
  | some lp =>
  if lp ≠ tps.length then .error .lenInconsistent
  else
  -- lines 57-62: first-record checks
  match (if 0 < lv then firstHistBad vhJ else some false) with
  | none => .error .raised
  | some true => .error .emptyFirstVelocity
  | some false =>
  match (if 0 < lp then firstHistBad phJ else some false) with
  | none => .error .raised
  | some true => .error .emptyFirstPressure
  | some false =>
  -- line 65: len(grid_shape) == 3 and all(d > 0 for d in grid_shape)
  match pyLen gsJ with
  | none => .error .raised
  | some lg =>
  if lg ≠ 3 then .error .invalidGridShape
  else
  match pyAllGtZero gsJ with
  | none => .error .raised
  | some false => .error .invalidGridShape
  | some true =>
  -- line 68: num_z, num_y, num_x = grid_shape (length 3 with comparable
  -- entries forces a three-element list)
  match asTriple gsJ with
  | none => .error .raised
  | some (gz, gy, gx) =>
  -- lines 71-74: voxel sizes
  if (pyNumGtZero dxJ && pyNumGtZero dyJ && pyNumGtZero dzJ) = false then
    .error .invalidVoxelSizes
  else
  -- lines 78-84: node-count and column checks against the numpy shape
  -- (entries passed all(d > 0), so they are numeric)
  match jnumVal gx with
  | none => .error .raised
  | some vx =>
  match jnumVal gy with
  | none => .error .raised
  | some vy =>
  match jnumVal gz with
  | none => .error .raised
  | some vz =>
  match nodesShape with
  | [] => .error .raised        -- shape[0] raises IndexError on a 0-d array
  | n0 :: nrest =>
  if (Val.fmul vx (Val.fmul vy vz)).numEq (.vf (n0 : ℚ)) = false then
    .error .nodeCountMismatch
  else
  match nrest with
  | [] => .error .raised        -- shape[1] raises IndexError on a 1-d array
  | n1 :: _ =>
  if n1 ≠ 3 then .error .nodeColumnsBad
  else
  -- non-list histories were rejected by the first-record check
  match asList vhJ, asList phJ with
  | some vhs, some phs =>
    .ok ⟨tps, nodesJ, [gz, gy, gx], dxJ, dyJ, dzJ, vhs, phs, gx, gy, gz⟩
  | _, _ => .error .raised

end DataValidators

/-- The distinct failure exits of
`navier_stokes_validator.validate_navier_stokes_data` (one per
`print`/`return None` site, plus `raised` for every exception path). -/
inductive NsvErr where
  | missingTimePoints
  | typeTimePoints
  | emptyTimePoints
  | missingMeshInfo
  | typeMeshInfo
  | missingMeshKey (k : String)
  | typeNodesCoords
  | typeGridShape
  | missingVelocityHistory
  | typeVelocityHistory
  | missingPressureHistory
  | typePressureHistory
  | lenInconsistent
  | emptyFirstVelocity
  | emptyFirstPressure
  | invalidGridShape
  | invalidVoxelSizes
  | nodeCountMismatch
  | nodeColumnsBad
  | raised
deriving DecidableEq, Repr

namespace NavierStokesValidator

open JVal

/-- Lift an optional value, mapping a Python exception (`none`) to the
`raised` rejection. -/
def req {α : Type} : Option α → Except NsvErr α
  | some a => .ok a
  | none => .error .raised

/-- Shallow embedding of `navier_stokes_validator.validate_navier_stokes_data`
(`src/navier_stokes_validator.py` lines 3-124), check for check in source
order.  It differs from the `data_validators.py` version by explicit
`isinstance` checks on `time_points`, `mesh_info`, `nodes_coords`,
`grid_shape` and the two histories, by deciding `time_points` emptiness via
`np.size` (line 24) instead of `len`, and by requiring the grid-shape
entries to be `int` instances (line 88; Python bools are `int`s). -/
def validate_navier_stokes_data (d : JVal) : Except NsvErr NSTuple :=
  match pyIn "time_points" d with
  | none => .error .raised
  | some false => .error .missingTimePoints
  | some true =>
  match pySub d "time_points" with
  | none => .error .raised
  | some tpJ =>
  -- line 20: isinstance(time_points, list)
  match asList tpJ with
  | none => .error .typeTimePoints
  | some tps =>
  -- line 23: np.array raises on ragged data
  if (npShape (.jarr tps)).isSome = false then .error .raised
  -- line 24: time_points.size == 0 (total element count of the array)
  else if (jleaves (.jarr tps)).length = 0 then .error .emptyTimePoints
  else
  match pyIn "mesh_info" d with
  | none => .error .raised
  | some false => .error .missingMeshInfo
  | some true =>
  match pySub d "mesh_info" with
  | none => .error .raised
  | some mesh =>
  -- line 32: isinstance(mesh_info, dict)
  match asObj mesh with
  | none => .error .typeMeshInfo
  | some _ =>
  match pyIn "nodes_coords" mesh with
  | none => .error .raised
  | some false => .error (.missingMeshKey "nodes_coords")
  | some true =>
  match pyIn "grid_shape" mesh with
  | none => .error .raised
  | some false => .error (.missingMeshKey "grid_shape")
  | some true =>
  match pyIn "dx" mesh with
  | none => .error .raised
  | some false => .error (.missingMeshKey "dx")
  | some true =>
  match pyIn "dy" mesh with
  | none => .error .raised
  | some false => .error (.missingMeshKey "dy")
  | some true =>
  match pyIn "dz" mesh with
  | none => .error .raised
  | some false => .error (.missingMeshKey "dz")
  | some true =>
  match pySub mesh "nodes_coords" with
  | none => .error .raised
  | some nodesJ =>
  -- line 43: isinstance(nodes_coords, list)
  match asList nodesJ with
  | none => .error .typeNodesCoords
  | some _ =>
  -- line 46: np.array raises on ragged data
  match npShape nodesJ with
  | none => .error .raised
  | some nodesShape =>
  match pySub mesh "grid_shape" with
  | none => .error .raised
  | some gsJ =>
  -- line 48: isinstance(grid_shape, list)
  match asList gsJ with
  | none => .error .typeGridShape
  | some gss =>
  match pySub mesh "dx" with
  | none => .error .raised
  | some dxJ =>
  match pySub mesh "dy" with
  | none => .error .raised
  | some dyJ =>
  match pySub mesh "dz" with
  | none => .error .raised
  | some dzJ =>
  match pyIn "velocity_history" d with
  | none => .error .raised
  | some false => .error .missingVelocityHistory
  | some true =>
  match pySub d "velocity_history" with
  | none => .error .raised
  | some vhJ =>
  -- line 60: isinstance(velocity_history, list)
  match asList vhJ with
  | none => .error .typeVelocityHistory
  | some vhs =>
  match pyIn "pressure_history" d with
  | none => .error .raised
  | some false => .error .missingPressureHistory
  | some true =>
  match pySub d "pressure_history" with
  | none => .error .raised
  | some phJ =>
  -- line 68: isinstance(pressure_history, list)
  match asList phJ with
  | none => .error .typePressureHistory
  | some phs =>
  -- line 74: short-circuiting conjunction of the two length equalities
  if vhs.length ≠ tps.length then .error .lenInconsistent
  else if phs.length ≠ tps.length then .error .lenInconsistent
  else
  -- lines 80-85: first-record checks (`not h[0]` on a list = emptiness)
  match (if 0 < vhs.length then firstHistBad (.jarr vhs) else some false) with
  | none => .error .raised
  | some true => .error .emptyFirstVelocity
  | some false =>
  match (if 0 < phs.length then firstHistBad (.jarr phs) else some false) with
  | none => .error .raised
  | some true => .error .emptyFirstPressure
  | some false =>
  -- line 88: isinstance(grid_shape, list) and len == 3 and
  --          all(isinstance(d, int) and d > 0 ...) — never raises
  if (gss.length = 3 && gss.all isIntPos) = false then .error .invalidGridShape
  else
  match asTriple gsJ with
  | none => .error .raised      -- unreachable: the length is 3
  | some (gz, gy, gx) =>
  -- lines 94-97: voxel sizes
  if (pyNumGtZero dxJ && pyNumGtZero dyJ && pyNumGtZero dzJ) = false then
    .error .invalidVoxelSizes
  else
  -- lines 101-107: node-count and column checks against the numpy shape
  match jnumVal gx with
  | none => .error .raised      -- unreachable: entries are ints
  | some vx =>
  match jnumVal gy with
  | none => .error .raised
  | some vy =>
  match jnumVal gz with
  | none => .error .raised
  | some vz =>
  match nodesShape with
  | [] => .error .raised        -- shape[0] raises IndexError on a 0-d array
  | n0 :: nrest =>
  if (Val.fmul vx (Val.fmul vy vz)).numEq (.vf (n0 : ℚ)) = false then
    .error .nodeCountMismatch
  else
  match nrest with
  | [] => .error .raised        -- shape[1] raises IndexError on a 1-d array
  | n1 :: _ =>
  if n1 ≠ 3 then .error .nodeColumnsBad
  else
  .ok ⟨tps, nodesJ, [gz, gy, gx], dxJ, dyJ, dzJ, vhs, phs, gx, gy, gz⟩

end NavierStokesValidator

/-- Python `str.lower()` restricted to ASCII (the only case mapping the
model needs; the recognized model names are ASCII). -/
def lowerChar (c : Char) : Char :=
  if c.toNat ≥ 65 ∧ c.toNat ≤ 90 then Char.ofNat (c.toNat + 32) else c

/-- `s.lower()` for a Python string. -/
def pyLower (s : String) : String := String.mk (s.data.map lowerChar)

/-- The tuple returned by `data_validators.validate_initial_data`:
`(initial_density, R_specific_gas, gamma, initial_C, thermo_model)`.
The three optional fields stay Python-`None` for the incompressible model. -/
structure InitTuple where
  initial_density : Val
  R_specific_gas : Option Val
  gamma : Option Val
  initial_C : Option Val
  thermo_model : String
deriving DecidableEq, Repr

/-- The distinct failure exits of `data_validators.validate_initial_data`. -/
inductive InitErr where
  | missingFluidProperties
  | missingDensity
  | invalidDensity
  | missingThermoKey (k : String)
  | invalidRGamma
  | emptyPressureHistory
  | emptyFirstPressure
  | avgNotPositive
  | unsupportedModel
  | raised
deriving DecidableEq, Repr

namespace DataValidators

/-- Lift an optional value, mapping a Python exception (`none`) to the
`raised` rejection. -/
def reqI {α : Type} : Option α → Except InitErr α
  | some a => .ok a
  | none => .error .raised

/-- Shallow embedding of `data_validators.validate_initial_data`
(`src/data_validators.py` lines 102-189).  `fpow ρ γ` stands for the Python
float power `initial_density ** gamma` (line 166).  Source facts reflected
here: the density check uses `initial_density <= 0` (line 130), so a NaN
density is accepted; the R/gamma check uses `> 0` (lines 146-147), so NaN is
rejected there but `+Inf` is accepted; the average-pressure guard uses
`avg_initial_pressure <= 0` (line 162), so a NaN mean passes; `np.float64`
division by zero yields `±Inf`/NaN rather than raising. -/
def validate_initial_data (fpow : Val → Val → Val) (initial_data : JVal)
    (pressure_history : List JVal) : Except InitErr InitTuple := do
  let hasFp ← reqI (JVal.pyIn "fluid_properties" initial_data)
  unless hasFp do throw InitErr.missingFluidProperties
  let fp ← reqI (JVal.pySub initial_data "fluid_properties")
  let hasDen ← reqI (JVal.pyIn "density" fp)
  unless hasDen do throw InitErr.missingDensity
  let denJ ← reqI (JVal.pySub fp "density")
  -- line 130: not isinstance(d, (int, float)) or d <= 0
  let ρ ← match JVal.jnumVal denJ with
    | some v => pure v
    | none => throw InitErr.invalidDensity
  if ρ.le (.vf 0) then throw InitErr.invalidDensity
  -- line 134: thermodynamics = fluid_properties.get('thermodynamics', {})
  let thermoJ := JVal.pyGet fp "thermodynamics" (.jobj [])
  -- line 135: thermodynamics.get('model', '').lower()
  unless (match thermoJ with | .jobj _ => true | _ => false) do
    throw InitErr.raised  -- .get on a non-dict raises AttributeError
  let modelJ := JVal.pyGet thermoJ "model" (.jstr "")
  let tm ← match modelJ with
    | .jstr s => pure (pyLower s)
    | _ => throw InitErr.raised  -- .lower() on a non-string raises AttributeError
  if tm = "ideal_gas" then
    let hasR ← reqI (JVal.pyIn "specific_gas_constant_J_per_kgK" thermoJ)
    unless hasR do throw (InitErr.missingThermoKey "specific_gas_constant_J_per_kgK")
    let hasG ← reqI (JVal.pyIn "adiabatic_index_gamma" thermoJ)
    unless hasG do throw (InitErr.missingThermoKey "adiabatic_index_gamma")
    let rJ ← reqI (JVal.pySub thermoJ "specific_gas_constant_J_per_kgK")
    let gJ ← reqI (JVal.pySub thermoJ "adiabatic_index_gamma")
    -- line 146: isinstance and > 0 for both constants
    unless (JVal.pyNumGtZero rJ && JVal.pyNumGtZero gJ) do throw InitErr.invalidRGamma
    let rV ← reqI (JVal.jnumVal rJ)
    let gV ← reqI (JVal.jnumVal gJ)
    -- line 152: not pressure_history or len(pressure_history[0]) == 0
    let p0 ← match pressure_history with
      | [] => throw InitErr.emptyPressureHistory
      | p :: _ => pure p
    let l0 ← reqI (JVal.pyLen p0)
    if l0 = 0 then throw InitErr.emptyPressureHistory
    -- line 156: np.array(pressure_history[0]) — raises on ragged data
    unless (JVal.npShape p0).isSome do throw InitErr.raised
    let ps ← reqI (jnumList (jleaves p0))  -- np.mean raises TypeError on non-numeric data
    -- line 157: first_time_step_pressures.size == 0
    if ps.length = 0 then throw InitErr.emptyFirstPressure
    let avg := npMean ps
    -- line 162: avg_initial_pressure <= 0
    if avg.le (.vf 0) then throw InitErr.avgNotPositive
    -- line 166: initial_C = avg / (initial_density ** gamma)
    let c := Val.fdiv avg (fpow ρ gV)
    return ⟨ρ, some rV, some gV, some c, tm⟩
  else if tm = "incompressible" then
    return ⟨ρ, none, none, none, tm⟩
  else
    throw InitErr.unsupportedModel

end DataValidators

/-- Positional access with a default (`l[i]` guarded by bounds) — a local
spelling of `List.getD` kept opaque to the default simp set so that indexed
hypotheses keep one normal form. -/
def nthD {α : Type} (l : List α) (i : ℕ) (d : α) : α := (l.get? i).getD d

/-- A numpy array dtype as relevant to the incompressible branch:
`np.array` of all-bool data is `bool`, of ints (or ints and bools) is
integer, and any float (or NaN/Inf) promotes to `float64`. -/
inductive NpDtype where
  | float
  | int
  | bool
deriving DecidableEq, Repr

/-- Dtype of `np.array` built from the given numeric leaves. -/
def dtypeOf (vs : List Val) : NpDtype :=
  if vs.any (fun v => match v with | .vf _ => true | .nan => true | .inf => true | .ninf => true | _ => false)
    then .float
  else if vs.any (fun v => match v with | .vi _ => true | _ => false) then .int
  else .bool

/-- `np.full_like(a, fill)`: the fill value is cast to `a`'s dtype — a
float→int cast truncates toward zero, a float→bool cast is non-zero-ness.
Casting NaN/Inf to int is platform-defined in numpy and modelled as fatal. -/
def npCast (dt : NpDtype) (v : Val) : Option Val :=
  match dt with
  | .float =>
    match v with
    | .vi n => some (.vf (n : ℚ))
    | .vb b => some (.vf (if b then 1 else 0))
    | x => some x
  | .int =>
    match v.toQ with
    | some q => some (.vi (if 0 ≤ q then ⌊q⌋ else ⌈q⌉))
    | none => none
  | .bool =>
    match v.toQ with
    | some q => some (.vb (decide (q ≠ 0)))
    | none => some (.vb true)

/-- `np.zeros_like` for the given dtype. -/
def npZero : NpDtype → Val
  | .float => .vf 0
  | .int => .vi 0
  | .bool => .vb false

/-- `ndarray.reshape(-1, 3).tolist()`: rows of three consecutive leaves in C
order.  Only reached when the leaf count is divisible by 3. -/
def chunk3 : List JVal → List (List JVal)
  | a :: b :: c :: rest => [a, b, c] :: chunk3 rest
  | [] => []
  | rest => [rest]

/-- The per-time-step record built by the calculator:
`{time, frame, density_data, velocity_data, temperature_data}`. -/
structure StepRec where
  time : Val
  frame : ℕ
  density_data : List Val
  velocity_data : List (List JVal)
  temperature_data : List Val
deriving Repr

namespace FluidCalculators

open JVal

/-- Shallow embedding of
`fluid_calculators.calculate_fluid_properties_at_timestep`
(`src/fluid_calculators.py` lines 3-101).  `none` is the source's `None`
(every caught exception included); the empty-data branch (lines 34-43)
returns a degenerate record instead.  `apow v` stands for the elementwise
numpy power `v ** (1 / gamma)` (line 68).  Source facts reflected here: a
missing index returns `None` (line 29), which the caller treats as fatal;
reshape raises `TypeError` on non-int dimensions and `ValueError` on a size
mismatch (both end as `None`); the guards test `is None or == 0` (lines
56-64); density is scrubbed (lines 69-71) before the temperature uses it
(line 74); `np.full_like` (line 84) inherits the pressure array's dtype. -/
def calculate_fluid_properties_at_timestep
    (apow : Val → Val) (t_idx : ℕ) (current_time : JVal)
    (velocity_history pressure_history : List JVal)
    (num_x num_y num_z : JVal) (thermo_model : String)
    (initial_density : Val) (R_specific_gas gamma initial_C : Option Val) :
    Option StepRec :=
  -- line 27: data for this index is missing
  if velocity_history.length ≤ t_idx ∨ pressure_history.length ≤ t_idx then none
  else
    let vstep := nthD velocity_history t_idx .jnull
    let pstep := nthD pressure_history t_idx .jnull
    -- lines 31-32: np.array raises on ragged data (caught by the blanket except)
    match npShape vstep, npShape pstep with
    | some _, some _ =>
      let vflat := jleaves vstep
      let pflat := jleaves pstep
      -- lines 34-43: empty data → degenerate record (fails only if
      -- float(current_time) raises while building the dict)
      if vflat.length = 0 ∨ pflat.length = 0 then do
        let tv ← pyFloat current_time
        some ⟨tv, t_idx, [], [], []⟩
      else do
        -- lines 46-47: reshape(num_z, num_y, num_x[, 3])
        let nz ← pyDim num_z
        let ny ← pyDim num_y
        let nx ← pyDim num_x
        if vflat.length ≠ nz * ny * nx * 3 then none
        else if pflat.length ≠ nz * ny * nx then none
        else if thermo_model = "ideal_gas" then do
          -- lines 56-64: constant guards, in source order
          let cC ← initial_C
          if cC.numEq (.vf 0) then none
          else do
            let gv ← gamma
            if gv.numEq (.vf 0) then none
            else do
              let rv ← R_specific_gas
              if rv.numEq (.vf 0) then none
              else do
                let ps ← jnumList pflat  -- np.maximum raises TypeError otherwise
                -- lines 66-71: clamp, power, scrub
                let dens := ps.map (fun p =>
                  sanitize (apow (Val.fdiv (npMaximum p eps9) cC)))
                -- lines 73-81: temperature where density > 1e-9, then scrub
                let temps := (ps.zip dens).map (fun pd =>
                  sanitize (if Val.lt (.vf eps9) pd.2
                    then Val.fdiv (npMaximum pd.1 eps9) (Val.fmul pd.2 rv)
                    else .vf 0))
                let tv ← pyFloat current_time
                some ⟨tv, t_idx, dens, chunk3 vflat, temps⟩
        else if thermo_model = "incompressible" then do
          -- lines 83-85: full_like / zeros_like follow the pressure dtype
          let ps ← jnumList pflat  -- non-numeric dtypes are modelled as fatal
          let dt := dtypeOf ps
          let dval ← npCast dt initial_density
          let tv ← pyFloat current_time
          some ⟨tv, t_idx, List.replicate ps.length dval, chunk3 vflat,
                List.replicate ps.length (npZero dt)⟩
        else
          -- line 88 with density_grid = None: AttributeError, caught → None
          none
    | _, _ => none

end FluidCalculators

/-- The failure modes of `process_fluid_data`, one per distinct diagnostic:
a dataset-validation rejection, an initial-data rejection, a fatal per-step
error at a given index (lines 45-51), or the no-valid-steps guard (line 55).
The Python function returns `None` in every case; the tags record which
`print` fired. -/
inductive PErr where
  | nsErr (e : DvErr)
  | initErr (e : InitErr)
  | stepFatal (i : ℕ)
  | noValidSteps
deriving DecidableEq, Repr

/-- The output document of `process_fluid_data`, less the provenance
metadata (source filenames and wall-clock timestamp, which are I/O concerns
outside the model): `grid_info` plus the time-step records. -/
structure OutDoc where
  dimensions : List JVal
  voxel_size : List JVal
  origin : JVal
  time_steps : List StepRec
deriving Repr

namespace FluidDataProcessor

/-- `nodes_coords[0].tolist()` (line 61): the first node row.  Unreachable
default: validation guarantees a non-empty 2-d array. -/
def originOf : JVal → JVal
  | .jarr (r :: _) => r
  | _ => .jnull

/-- The per-time-step loop of `process_fluid_data` (lines 40-53): each
`None` from the calculator aborts everything (lines 45-51), every other
record is appended in order. -/
def runSteps (apow : Val → Val) (vh ph : List JVal) (nX nY nZ : JVal)
    (tm : String) (ρ : Val) (r g c : Option Val) :
    List JVal → ℕ → Except PErr (List StepRec)
  | [], _ => .ok []
  | t :: rest, i =>
    match FluidCalculators.calculate_fluid_properties_at_timestep
        apow i t vh ph nX nY nZ tm ρ r g c with
    | none => .error (.stepFatal i)
    | some rec =>
      match runSteps apow vh ph nX nY nZ tm ρ r g c rest (i + 1) with
      | .error e => .error e
      | .ok l => .ok (rec :: l)

/-- Shallow embedding of `fluid_data_processor.process_fluid_data`
(`src/fluid_data_processor.py` lines 9-77): validate the simulation
document, validate the initial-conditions document against the validated
pressure history, derive every time step (aborting on the first fatal step),
apply the no-valid-steps guard, and assemble the output document.  The
filename/timestamp metadata parameters are outside the model. -/
def process_fluid_data (apow : Val → Val) (fpow : Val → Val → Val)
    (navier_stokes_data initial_data : JVal) : Except PErr OutDoc := do
  let tup ← match DataValidators.validate_navier_stokes_data navier_stokes_data with
    | .error e => throw (PErr.nsErr e)
    | .ok t => pure t
  let itup ← match DataValidators.validate_initial_data fpow initial_data
      tup.pressure_history with
    | .error e => throw (PErr.initErr e)
    | .ok t => pure t
  let steps ← runSteps apow tup.velocity_history tup.pressure_history
    tup.numX tup.numY tup.numZ itup.thermo_model itup.initial_density
    itup.R_specific_gas itup.gamma itup.initial_C tup.time_points 0
  -- line 55: no valid steps while time points exist
  if steps.isEmpty ∧ 0 < tup.time_points.length then throw PErr.noValidSteps
  return ⟨[tup.numX, tup.numY, tup.numZ], [tup.dx, tup.dy, tup.dz],
          originOf tup.nodes_coords, steps⟩

end FluidDataProcessor

/-! ## Concrete input documents used by witnesses and counterexamples -/

/-- A stand-in for the float power `initial_density ** gamma`: constantly
`1.0`.  Any concrete instantiation is admissible wherever a theorem holds
for all `fpow`. -/
def powStub : Val → Val → Val := fun _ _ => Val.vf 1

/-- A stand-in for the elementwise power `x ** (1 / gamma)`: the identity. -/
def apowStub : Val → Val := fun v => v

/-- Builder for a simulation document with unit voxel sizes. -/
def mkNS (tps vh ph gs nodes : List JVal) : JVal :=
  .jobj [
    ("time_points", .jarr tps),
    ("mesh_info", .jobj [
      ("nodes_coords", .jarr nodes),
      ("grid_shape", .jarr gs),
      ("dx", .jfloat 1), ("dy", .jfloat 1), ("dz", .jfloat 1)]),
    ("velocity_history", .jarr vh),
    ("pressure_history", .jarr ph)]

/-- The origin node `[0.0, 0.0, 0.0]`. -/
def node0 : JVal := .jarr [.jfloat 0, .jfloat 0, .jfloat 0]

/-- A one-node velocity record `[[1.0, 2.0, 3.0]]`. -/
def vel1 : JVal := .jarr [.jarr [.jfloat 1, .jfloat 2, .jfloat 3]]

/-- One time step on a 1x1x1 grid whose single pressure sample is the
Python int `100` (so the pressure array has integer dtype). -/
def nsIntDoc : JVal :=
  mkNS [.jfloat 0] [vel1] [.jarr [.jint 100]] [.jint 1, .jint 1, .jint 1] [node0]

/-- Initial conditions: incompressible, `density = 1.225`. -/
def initIncompDoc : JVal := .jobj [("fluid_properties", .jobj [
  ("density", .jfloat (49/40)),
  ("thermodynamics", .jobj [("model", .jstr "incompressible")])])]

/-- Initial conditions: ideal gas, `density = 1.225`, `R = 287`,
`gamma = 1.4`. -/
def initIdealDoc : JVal := .jobj [("fluid_properties", .jobj [
  ("density", .jfloat (49/40)),
  ("thermodynamics", .jobj [("model", .jstr "ideal_gas"),
    ("specific_gas_constant_J_per_kgK", .jfloat 287),
    ("adiabatic_index_gamma", .jfloat (7/5))])])]

/-- Scenario E: four time steps on a 1x1x1 grid, `velocity_history[2]`
empty, steps 0, 1, 3 populated. -/
def ns4Doc : JVal :=
  mkNS [.jfloat 0, .jfloat 1, .jfloat 2, .jfloat 3]
    [vel1, vel1, .jarr [], vel1]
    [.jarr [.jfloat 5], .jarr [.jfloat 5], .jarr [.jfloat 5], .jarr [.jfloat 5]]
    [.jint 1, .jint 1, .jint 1] [node0]

/-- One valid ideal-gas time step: single node, pressure `4.0`. -/
def nsIdealDoc : JVal :=
  mkNS [.jfloat 0] [vel1] [.jarr [.jfloat 4]] [.jint 1, .jint 1, .jint 1] [node0]

/-- `pressure_history[0] == []` with everything else valid. -/
def nsEmptyPDoc : JVal :=
  mkNS [.jfloat 0] [vel1] [.jarr []] [.jint 1, .jint 1, .jint 1] [node0]

/-- Two time steps where step 1 has two velocity vectors on a 1x1x1 grid —
a reshape size mismatch, fatal at index 1. -/
def nsBadStepDoc : JVal :=
  mkNS [.jfloat 0, .jfloat 1]
    [vel1, .jarr [.jarr [.jfloat 1, .jfloat 2, .jfloat 3],
                  .jarr [.jfloat 1, .jfloat 2, .jfloat 3]]]
    [.jarr [.jfloat 5], .jarr [.jfloat 5]]
    [.jint 1, .jint 1, .jint 1] [node0]

/-- A document that is valid except that its `grid_shape` entries are the
floats `1.0` — accepted by `data_validators.py` (`all(d > 0 ...)`), rejected
by `navier_stokes_validator.py` (`isinstance(d, int)`). -/
def nsFloatGridDoc : JVal :=
  mkNS [.jfloat 0] [vel1] [.jarr [.jfloat 5]]
    [.jfloat 1, .jfloat 1, .jfloat 1] [node0]

/-- A document with mismatched history lengths (2 time points, 1-step
histories) and the given `grid_shape` — used to show which check fires. -/
def mkMismatchDoc (gs : JVal) : JVal := .jobj [
  ("time_points", .jarr [.jfloat 0, .jfloat 1]),
  ("mesh_info", .jobj [
    ("nodes_coords", .jarr [node0]),
    ("grid_shape", gs),
    ("dx", .jfloat 1), ("dy", .jfloat 1), ("dz", .jfloat 1)]),
  ("velocity_history", .jarr [vel1]),
  ("pressure_history", .jarr [.jarr [.jfloat 5]])]

/-- Default record for positional access into a step list. -/
def defaultStep : StepRec := ⟨.vf 0, 0, [], [], []⟩

/-- Whether a pipeline run failed with a `validate_initial_data`
(thermodynamic-model) rejection. -/
def isInitFailure : Except PErr OutDoc → Bool
  | .error (.initErr _) => true
  | _ => false

/-- Whether an `Except` result is a success. -/
def isOkE {ε α : Type} : Except ε α → Bool
  | .ok _ => true
  | .error _ => false

/-! ## Claim theorems -/

/-- C2 (code evaluation at the failing input): with the incompressible model,
a validated initial density of `1.225` and a pressure step whose single
sample is the Python int `100`, the pipeline succeeds but emits the density
`1` (an int), because `np.full_like` casts the fill value to the pressure
array's integer dtype; the emitted value is numerically different from the
validated initial density, contradicting the constant-density contract. -/
theorem C2_incompressible_int_dtype_evaluation :
    (DataValidators.validate_initial_data powStub initIncompDoc
        [.jarr [.jint 100]]).toOption.map (fun t => t.initial_density)
      = some (.vf (49/40))
    ∧ (FluidDataProcessor.process_fluid_data apowStub powStub nsIntDoc
        initIncompDoc).toOption.map
        (fun o => o.time_steps.map (fun s => s.density_data))
      = some [[.vi 1]]
    ∧ Val.numEq (.vi 1) (.vf (49/40)) = false :=
  ⟨rfl, rfl, rfl⟩

/-- C6 (counterexample): with `pressure_history[0] == []` and an ideal-gas
initial document, the pipeline fails with the *dataset validator's*
empty-first-pressure structural rejection, not with a
`validate_initial_data` (thermodynamic-model) failure. -/
theorem C6_counterexample :
    FluidDataProcessor.process_fluid_data apowStub powStub nsEmptyPDoc initIdealDoc
      = .error (.nsErr .emptyFirstPressure)
    ∧ isInitFailure (FluidDataProcessor.process_fluid_data apowStub powStub
        nsEmptyPDoc initIdealDoc) = false :=
  ⟨rfl, rfl⟩

/-- C6 (amended): a run whose simulation document has an empty
`pressure_history[0]` fails during dataset validation with the
empty-first-pressure structural error, for every initial-conditions
document and every power instantiation — the thermodynamic resolver never
runs; its own cannot-calculate-reference-constant guard fires only when
`validate_initial_data` is invoked directly with an empty history. -/
theorem C6_structural_rejection_amended (initd : JVal) (apow : Val → Val)
    (fpow : Val → Val → Val) :
    FluidDataProcessor.process_fluid_data apow fpow nsEmptyPDoc initd
      = .error (.nsErr .emptyFirstPressure)
    ∧ DataValidators.validate_initial_data fpow initIdealDoc [.jarr []]
      = .error .emptyPressureHistory :=
  ⟨rfl, rfl⟩

/-- C7 (counterexample): a document that fails both the grid-shape validity
check (`grid_shape = [0, 0, 0]`) and the history length-equality check (two
time points, one-step histories) is rejected with the length-inconsistency
error, not the grid-shape one. -/
theorem C7_counterexample :
    DataValidators.validate_navier_stokes_data
        (mkMismatchDoc (.jarr [.jint 0, .jint 0, .jint 0]))
      = .error .lenInconsistent
    ∧ DvErr.lenInconsistent ≠ DvErr.invalidGridShape :=
  ⟨rfl, by decide⟩

/-- C7 (amended): the validator's checks short-circuit in source order, in
which the history length-equality check precedes the grid-shape/voxel-size
validity checks: a document with mismatched history lengths is rejected
with the length-inconsistency error whatever its `grid_shape` value is —
the grid shape is never consulted before the length check. -/
theorem C7_check_order_amended (gs : JVal) :
    DataValidators.validate_navier_stokes_data (mkMismatchDoc gs)
      = .error .lenInconsistent :=
  rfl

/-- C9 (counterexample): `validate_initial_data` accepts an ideal-gas
document whose first pressure step is `[NaN]` — the `avg <= 0` guard is
`False` for NaN — and returns `initial_C = NaN`, which is not `> 0`.  The
returned constant is independent of the power instantiation because
`NaN / x` is NaN for every `x`. -/
theorem C9_counterexample :
    ∃ t, DataValidators.validate_initial_data powStub initIdealDoc
        [.jarr [.jnan]] = .ok t
      ∧ t.initial_C = some Val.nan
      ∧ Val.lt (.vf 0) Val.nan = false :=
  ⟨_, rfl, rfl, rfl⟩

/-- C10 (counterexample): the two validators are not extensionally equal —
on a document whose `grid_shape` entries are the floats `1.0`,
`data_validators.validate_navier_stokes_data` accepts (its check is
`all(d > 0 ...)`) while `navier_stokes_validator.validate_navier_stokes_data`
rejects (its check requires `isinstance(d, int)`). -/
theorem C10_counterexample :
    isOkE (DataValidators.validate_navier_stokes_data nsFloatGridDoc) = true
    ∧ isOkE (NavierStokesValidator.validate_navier_stokes_data nsFloatGridDoc)
      = false :=
  ⟨rfl, rfl⟩

/-- C3 (counterexample): on the scenario-E input (1x1x1 grid, four time
steps, `velocity_history[2]` empty) the pipeline succeeds and every
surviving record has density, velocity and temperature arrays of equal
length, but the record for step 2 has length 0, not
`num_x*num_y*num_z = 1`. -/
theorem C3_size_invariant_counterexample :
    (FluidDataProcessor.process_fluid_data apowStub powStub ns4Doc
        initIncompDoc).toOption.map
        (fun o => o.time_steps.map (fun s =>
          (s.density_data.length, s.velocity_data.length,
           s.temperature_data.length)))
      = some [(1, 1, 1), (1, 1, 1), (0, 0, 0), (1, 1, 1)]
    ∧ (DataValidators.validate_navier_stokes_data ns4Doc).toOption.map
        (fun t => t.grid_shape) = some [.jint 1, .jint 1, .jint 1]
    ∧ (0 : ℕ) ≠ 1 * 1 * 1 :=
  ⟨rfl, rfl, by decide⟩

/-- Zipping a list with its own image lists each element with its image. -/
theorem zip_map_self {α β : Type} (f : α → β) (l : List α) :
    l.zip (l.map f) = l.map (fun a => (a, f a)) := by
  induction l with
  | nil => rfl
  | cons x xs ih => simp [ih]

/-- A reshape dimension accepted by `pyDim` is positive. -/
theorem pyDim_pos {j : JVal} {n : ℕ} (h : JVal.pyDim j = some n) : 0 < n := by
  cases j <;> simp [JVal.pyDim] at h
  case jint m =>
    rcases h with ⟨hm, rfl⟩
    omega
  case jbool b =>
    rcases h with ⟨hb, rfl⟩
    omega

/-- C1: for every time step processed under the ideal-gas model whose
velocity and pressure arrays are non-empty and reshape successfully (and
whose constants pass the zero-guards), the calculator returns a record in
which each emitted density value is
`sanitize (apow (max(p, 1e-9) / initial_C))` — the clamp, the power
`** (1/gamma)` (abstracted as `apow`) and the NaN/Inf/negative scrub —
computed from that node's pressure `p`; each emitted temperature value is
`sanitize (max(p, 1e-9) / (density * R))` where the scrubbed density
exceeds `1e-9` and `sanitize 0.0` otherwise; and every emitted density and
temperature value is a finite, non-negative number. -/
theorem C1_ideal_gas_density_temperature
    (apow : Val → Val) (t_idx : ℕ) (ct : JVal) (vh ph : List JVal)
    (nxJ nyJ nzJ : JVal) (ρ : Val) (rv gv cC : Val)
    (nx ny nz : ℕ) (ps : List Val) (tv : Val)
    (hvl : t_idx < vh.length) (hpl : t_idx < ph.length)
    (hvs : (JVal.npShape (nthD vh t_idx .jnull)).isSome = true)
    (hps : (JVal.npShape (nthD ph t_idx .jnull)).isSome = true)
    (hnz : JVal.pyDim nzJ = some nz) (hny : JVal.pyDim nyJ = some ny)
    (hnx : JVal.pyDim nxJ = some nx)
    (hpv : jnumList (jleaves (nthD ph t_idx .jnull)) = some ps)
    (hvlen : (jleaves (nthD vh t_idx .jnull)).length = nz * ny * nx * 3)
    (hplen : (jleaves (nthD ph t_idx .jnull)).length = nz * ny * nx)
    (hC : cC.numEq (.vf 0) = false) (hG : gv.numEq (.vf 0) = false)
    (hR : rv.numEq (.vf 0) = false)
    (htv : JVal.pyFloat ct = some tv) :
    FluidCalculators.calculate_fluid_properties_at_timestep apow t_idx ct vh ph
        nxJ nyJ nzJ "ideal_gas" ρ (some rv) (some gv) (some cC)
      = some ⟨tv, t_idx,
          ps.map (fun p => sanitize (apow (Val.fdiv (npMaximum p eps9) cC))),
          chunk3 (jleaves (nthD vh t_idx .jnull)),
          ps.map (fun p =>
            sanitize (if Val.lt (.vf eps9)
                (sanitize (apow (Val.fdiv (npMaximum p eps9) cC)))
              then Val.fdiv (npMaximum p eps9)
                (Val.fmul (sanitize (apow (Val.fdiv (npMaximum p eps9) cC))) rv)
              else .vf 0))⟩
    ∧ (∀ v ∈ ps.map (fun p => sanitize (apow (Val.fdiv (npMaximum p eps9) cC))),
        finiteNonneg v)
    ∧ (∀ v ∈ ps.map (fun p =>
          sanitize (if Val.lt (.vf eps9)
              (sanitize (apow (Val.fdiv (npMaximum p eps9) cC)))
            then Val.fdiv (npMaximum p eps9)
              (Val.fmul (sanitize (apow (Val.fdiv (npMaximum p eps9) cC))) rv)
            else .vf 0)),
        finiteNonneg v) := by
  obtain ⟨sv, hsv⟩ := Option.isSome_iff_exists.mp hvs
  obtain ⟨sp, hsp⟩ := Option.isSome_iff_exists.mp hps
  have hnzp := pyDim_pos hnz
  have hnyp := pyDim_pos hny
  have hnxp := pyDim_pos hnx
  have hprod : 0 < nz * ny * nx := Nat.mul_pos (Nat.mul_pos hnzp hnyp) hnxp
  have hbound : ¬ (vh.length ≤ t_idx ∨ ph.length ≤ t_idx) := by omega
  have hnonempty : ¬ ((jleaves (nthD vh t_idx .jnull)).length = 0
      ∨ (jleaves (nthD ph t_idx .jnull)).length = 0) := by
    rw [hvlen, hplen]
    push_neg
    constructor <;> positivity
  refine ⟨?_, ?_, ?_⟩
  · simp only [FluidCalculators.calculate_fluid_properties_at_timestep, hbound,
      if_false, hsv, hsp, hnonempty, hnz, hny, hnx, Option.some_bind, hvlen,
      hplen, ne_eq, not_true_eq_false, Bool.false_eq_true, if_true,
      reduceIte, hC, hG, hR, hpv, htv]
    rw [if_neg (by omega)]
    simp [hC, hG, hR, zip_map_self, List.map_map, Function.comp]
  · intro v hv
    simp only [List.mem_map] at hv
    obtain ⟨p, _, rfl⟩ := hv
    exact sanitize_finiteNonneg _
  · intro v hv
    simp only [List.mem_map] at hv
    obtain ⟨p, _, rfl⟩ := hv
    exact sanitize_finiteNonneg _

/-- C1 witness: the theorem applied at a concrete one-node ideal-gas step
(pressure `4.0`, `R = 287`, `gamma = 1.4`, `initial_C = 4`, the identity
standing in for the power). -/
theorem C1_witness :
    FluidCalculators.calculate_fluid_properties_at_timestep apowStub 0
        (.jfloat 0) [vel1] [.jarr [.jfloat 4]] (.jint 1) (.jint 1) (.jint 1)
        "ideal_gas" (.vf (49/40)) (some (.vf 287)) (some (.vf (7/5)))
        (some (.vf 4))
      = some ⟨.vf 0, 0,
          [Val.vf 4].map (fun p =>
            sanitize (apowStub (Val.fdiv (npMaximum p eps9) (.vf 4)))),
          chunk3 (jleaves (nthD [vel1] 0 .jnull)),
          [Val.vf 4].map (fun p =>
            sanitize (if Val.lt (.vf eps9)
                (sanitize (apowStub (Val.fdiv (npMaximum p eps9) (.vf 4))))
              then Val.fdiv (npMaximum p eps9)
                (Val.fmul (sanitize (apowStub
                  (Val.fdiv (npMaximum p eps9) (.vf 4)))) (.vf 287))
              else .vf 0))⟩
    ∧ (∀ v ∈ [Val.vf 4].map (fun p =>
          sanitize (apowStub (Val.fdiv (npMaximum p eps9) (.vf 4)))),
        finiteNonneg v)
    ∧ (∀ v ∈ [Val.vf 4].map (fun p =>
          sanitize (if Val.lt (.vf eps9)
              (sanitize (apowStub (Val.fdiv (npMaximum p eps9) (.vf 4))))
            then Val.fdiv (npMaximum p eps9)
              (Val.fmul (sanitize (apowStub
                (Val.fdiv (npMaximum p eps9) (.vf 4)))) (.vf 287))
            else .vf 0)),
        finiteNonneg v) :=
  C1_ideal_gas_density_temperature apowStub 0 (.jfloat 0) [vel1]
    [.jarr [.jfloat 4]] (.jint 1) (.jint 1) (.jint 1) (.vf (49/40)) (.vf 287)
    (.vf (7/5)) (.vf 4) 1 1 1 [.vf 4] (.vf 0) (by decide) (by decide)
    (by decide) (by decide) (by decide) (by decide) (by decide) (by decide)
    (by decide) (by decide) (by decide) (by decide) (by decide) (by decide)

/-- `jnumList` preserves length. -/
theorem jnumList_length : ∀ {l : List JVal} {vs : List Val},
    jnumList l = some vs → vs.length = l.length := by
  intro l
  induction l with
  | nil => intro vs h; simp [jnumList] at h; simp [← h]
  | cons x xs ih =>
    intro vs h
    unfold jnumList at h
    cases hx : JVal.jnumVal x with
    | none => rw [hx] at h; simp at h
    | some v =>
      rw [hx] at h
      cases hxs : jnumList xs with
      | none => rw [hxs] at h; simp at h
      | some vs2 =>
        rw [hxs] at h
        simp only [Option.some_inj] at h
        subst h
        simp [ih hxs]

/-- `chunk3` of a list of length `3 * k` has `k` rows. -/
theorem chunk3_length : ∀ (k : ℕ) (l : List JVal), l.length = 3 * k →
    (chunk3 l).length = k := by
  intro k
  induction k with
  | zero =>
    intro l h
    rw [List.length_eq_zero] at h
    · subst h; rfl
  | succ k ih =>
    intro l h
    match l, h with
    | a :: b :: c :: rest, h =>
      have hr : rest.length = 3 * k := by simp at h; omega
      simp [chunk3, ih rest hr]

/-- If the calculator returns a record for a step whose velocity or
pressure payload is empty, that record is the degenerate one: the input
frame index with empty density/velocity/temperature arrays. -/
theorem calc_empty_step (apow : Val → Val) (t_idx : ℕ) (ct : JVal)
    (vh ph : List JVal) (nxJ nyJ nzJ : JVal) (tm : String) (ρ : Val)
    (r g c : Option Val) (sr : StepRec)
    (h : FluidCalculators.calculate_fluid_properties_at_timestep apow t_idx ct
      vh ph nxJ nyJ nzJ tm ρ r g c = some sr)
    (hempty : (jleaves (nthD vh t_idx .jnull)).length = 0
      ∨ (jleaves (nthD ph t_idx .jnull)).length = 0) :
    ∃ tv, sr = ⟨tv, t_idx, [], [], []⟩ := by
  by_cases hb : vh.length ≤ t_idx ∨ ph.length ≤ t_idx
  · simp [FluidCalculators.calculate_fluid_properties_at_timestep, hb] at h
  · cases hsv : JVal.npShape (nthD vh t_idx .jnull) with
    | none =>
      simp [FluidCalculators.calculate_fluid_properties_at_timestep, hb, hsv] at h
    | some sv =>
      cases hsp : JVal.npShape (nthD ph t_idx .jnull) with
      | none =>
        simp [FluidCalculators.calculate_fluid_properties_at_timestep, hb, hsv,
          hsp] at h
      | some sp =>
        simp only [FluidCalculators.calculate_fluid_properties_at_timestep, hb,
          if_false, hsv, hsp] at h
        rw [if_pos hempty] at h
        cases htv : JVal.pyFloat ct with
        | none => rw [htv] at h; simp at h
        | some tv =>
          rw [htv] at h
          exact ⟨tv, by simpa using h.symm⟩

/-- Every record the calculator emits has density, velocity and temperature
arrays of one common length, which is either the grid size
`num_x*num_y*num_z` or `0` (the degenerate empty-step record). -/
theorem calc_ok_lengths (apow : Val → Val) (t_idx : ℕ) (ct : JVal)
    (vh ph : List JVal) (nxJ nyJ nzJ : JVal) (tm : String) (ρ : Val)
    (r g c : Option Val) (sr : StepRec) (nx ny nz : ℕ)
    (hnx : JVal.pyDim nxJ = some nx) (hny : JVal.pyDim nyJ = some ny)
    (hnz : JVal.pyDim nzJ = some nz)
    (h : FluidCalculators.calculate_fluid_properties_at_timestep apow t_idx ct
      vh ph nxJ nyJ nzJ tm ρ r g c = some sr) :
    sr.density_data.length = sr.velocity_data.length
    ∧ sr.density_data.length = sr.temperature_data.length
    ∧ (sr.density_data.length = nx * ny * nz ∨ sr.density_data.length = 0) := by
  by_cases hb : vh.length ≤ t_idx ∨ ph.length ≤ t_idx
  · simp [FluidCalculators.calculate_fluid_properties_at_timestep, hb] at h
  cases hsv : JVal.npShape (nthD vh t_idx .jnull) with
  | none =>
    simp [FluidCalculators.calculate_fluid_properties_at_timestep, hb, hsv] at h
  | some sv =>
  cases hsp : JVal.npShape (nthD ph t_idx .jnull) with
  | none =>
    simp [FluidCalculators.calculate_fluid_properties_at_timestep, hb, hsv,
      hsp] at h
  | some sp =>
  by_cases hemp : (jleaves (nthD vh t_idx .jnull)).length = 0
      ∨ (jleaves (nthD ph t_idx .jnull)).length = 0
  · obtain ⟨tv, rfl⟩ := calc_empty_step apow t_idx ct vh ph nxJ nyJ nzJ tm ρ
      r g c sr h hemp
    simp
  simp only [FluidCalculators.calculate_fluid_properties_at_timestep, hb,
    if_false, hsv, hsp] at h
  rw [if_neg hemp] at h
  rw [hnz] at h
  rw [hny] at h
  rw [hnx] at h
  try simp only [Option.bind_eq_bind', Option.some_bind, Option.none_bind] at h
  by_cases hvl3 : (jleaves (nthD vh t_idx .jnull)).length = nz * ny * nx * 3
  case neg => rw [if_pos hvl3] at h; simp at h
  case pos =>
  rw [if_neg (by simpa using hvl3)] at h
  by_cases hpl3 : (jleaves (nthD ph t_idx .jnull)).length = nz * ny * nx
  case neg => rw [if_pos hpl3] at h; simp at h
  case pos =>
  rw [if_neg (by simpa using hpl3)] at h
  by_cases htm : tm = "ideal_gas"
  · rw [if_pos htm] at h
    cases c with
    | none => simp at h
    | some cC =>
    try simp only [Option.bind_eq_bind', Option.some_bind, Option.none_bind] at h
    by_cases hc0 : cC.numEq (.vf 0) = true
    · rw [if_pos hc0] at h; simp at h
    rw [if_neg hc0] at h
    cases g with
    | none => simp at h
    | some gv =>
    try simp only [Option.bind_eq_bind', Option.some_bind, Option.none_bind] at h
    by_cases hg0 : gv.numEq (.vf 0) = true
    · rw [if_pos hg0] at h; simp at h
    rw [if_neg hg0] at h
    cases r with
    | none => simp at h
    | some rv =>
    try simp only [Option.bind_eq_bind', Option.some_bind, Option.none_bind] at h
    by_cases hr0 : rv.numEq (.vf 0) = true
    · rw [if_pos hr0] at h; simp at h
    rw [if_neg hr0] at h
    cases hps : jnumList (jleaves (nthD ph t_idx .jnull)) with
    | none => rw [hps] at h; simp at h
    | some ps =>
    rw [hps] at h
    cases htv : JVal.pyFloat ct with
    | none => rw [htv] at h; simp at h
    | some tv =>
    rw [htv] at h
    try simp only [Option.bind_eq_bind', Option.some_bind, Option.none_bind, Option.some_inj] at h
    subst h
    have hlen : ps.length = nz * ny * nx := by
      rw [jnumList_length hps, hpl3]
    have hch : (chunk3 (jleaves (nthD vh t_idx .jnull))).length = nz * ny * nx := by
      apply chunk3_length
      rw [hvl3]; ring
    refine ⟨?_, ?_, ?_⟩
    · simp [hch, hlen]
    · simp [List.length_zip, hlen]
    · left; simp [hlen]; ring
  by_cases htm2 : tm = "incompressible"
  · rw [if_neg htm, if_pos htm2] at h
    cases hps : jnumList (jleaves (nthD ph t_idx .jnull)) with
    | none => rw [hps] at h; simp at h
    | some ps =>
    rw [hps] at h
    try simp only [Option.bind_eq_bind', Option.some_bind, Option.none_bind] at h
    cases hcast : npCast (dtypeOf ps) ρ with
    | none => rw [hcast] at h; simp at h
    | some dval =>
    rw [hcast] at h
    cases htv : JVal.pyFloat ct with
    | none => rw [htv] at h; simp at h
    | some tv =>
    rw [htv] at h
    try simp only [Option.bind_eq_bind', Option.some_bind, Option.none_bind, Option.some_inj] at h
    subst h
    have hlen : ps.length = nz * ny * nx := by
      rw [jnumList_length hps, hpl3]
    have hch : (chunk3 (jleaves (nthD vh t_idx .jnull))).length = nz * ny * nx := by
      apply chunk3_length
      rw [hvl3]; ring
    refine ⟨?_, ?_, ?_⟩
    · simp [hch, hlen]
    · simp [hlen]
    · left; simp [hlen]; ring
  · rw [if_neg htm, if_neg htm2] at h
    simp at h

namespace FluidDataProcessor

/-- A successful derivation loop produces exactly one record per time
point. -/
theorem runSteps_ok_length (apow : Val → Val) (vh ph : List JVal)
    (nX nY nZ : JVal) (tm : String) (ρ : Val) (r g c : Option Val) :
    ∀ (ts : List JVal) (i : ℕ) (l : List StepRec),
      runSteps apow vh ph nX nY nZ tm ρ r g c ts i = .ok l →
      l.length = ts.length := by
  intro ts
  induction ts with
  | nil =>
    intro i l h
    simp only [runSteps] at h
    cases h
    rfl
  | cons t rest ih =>
    intro i l h
    unfold runSteps at h
    cases hc : FluidCalculators.calculate_fluid_properties_at_timestep apow i t
        vh ph nX nY nZ tm ρ r g c with
    | none => rw [hc] at h; simp at h
    | some r0 =>
      rw [hc] at h
      cases hr : runSteps apow vh ph nX nY nZ tm ρ r g c rest (i + 1) with
      | error e => rw [hr] at h; simp at h
      | ok l2 =>
        rw [hr] at h
        cases h
        simp [ih (i + 1) l2 hr]

/-- Every record of a successful derivation loop was emitted by the
calculator. -/
theorem runSteps_ok_forall (apow : Val → Val) (vh ph : List JVal)
    (nX nY nZ : JVal) (tm : String) (ρ : Val) (r g c : Option Val) :
    ∀ (ts : List JVal) (i : ℕ) (l : List StepRec),
      runSteps apow vh ph nX nY nZ tm ρ r g c ts i = .ok l →
      ∀ sr ∈ l, ∃ j t, FluidCalculators.calculate_fluid_properties_at_timestep
        apow j t vh ph nX nY nZ tm ρ r g c = some sr := by
  intro ts
  induction ts with
  | nil =>
    intro i l h
    simp only [runSteps] at h
    cases h
    intro sr hsr
    simp at hsr
  | cons t rest ih =>
    intro i l h
    unfold runSteps at h
    cases hc : FluidCalculators.calculate_fluid_properties_at_timestep apow i t
        vh ph nX nY nZ tm ρ r g c with
    | none => rw [hc] at h; simp at h
    | some r0 =>
      rw [hc] at h
      cases hr : runSteps apow vh ph nX nY nZ tm ρ r g c rest (i + 1) with
      | error e => rw [hr] at h; simp at h
      | ok l2 =>
        rw [hr] at h
        cases h
        intro sr hsr
        rcases List.mem_cons.mp hsr with h0 | h2
        · exact ⟨i, t, h0 ▸ hc⟩
        · exact ih (i + 1) l2 hr sr h2

/-- If every step's calculation succeeds, the loop succeeds, keeps one
record per time point, and the record at each index is the calculator's
output for that index. -/
theorem runSteps_all_some (apow : Val → Val) (vh ph : List JVal)
    (nX nY nZ : JVal) (tm : String) (ρ : Val) (r g c : Option Val) :
    ∀ (ts : List JVal) (i : ℕ),
      (∀ j, j < ts.length →
        (FluidCalculators.calculate_fluid_properties_at_timestep apow (i + j)
          (nthD ts j .jnull) vh ph nX nY nZ tm ρ r g c).isSome = true) →
      ∃ l, runSteps apow vh ph nX nY nZ tm ρ r g c ts i = .ok l
        ∧ l.length = ts.length
        ∧ ∀ j, j < ts.length →
            some (nthD l j defaultStep)
              = FluidCalculators.calculate_fluid_properties_at_timestep apow
                  (i + j) (nthD ts j .jnull) vh ph nX nY nZ tm ρ r g c := by
  intro ts
  induction ts with
  | nil =>
    intro i _
    exact ⟨[], rfl, rfl, by intro j hj; simp at hj⟩
  | cons t rest ih =>
    intro i h
    have h0 := h 0 (by simp)
    obtain ⟨r0, hr0⟩ := Option.isSome_iff_exists.mp h0
    obtain ⟨l, hl, hlen, hidx⟩ := ih (i + 1) (fun j hj => by
      have := h (j + 1) (by simpa using Nat.succ_lt_succ hj)
      simpa [nthD, Nat.add_assoc, Nat.add_comm 1 j] using this)
    refine ⟨r0 :: l, ?_, by simp [hlen], ?_⟩
    · unfold runSteps
      rw [show FluidCalculators.calculate_fluid_properties_at_timestep apow i t
          vh ph nX nY nZ tm ρ r g c = some r0 from by
            simpa [nthD] using hr0]
      rw [hl]
    · intro j hj
      cases j with
      | zero => simpa [nthD] using hr0.symm
      | succ k =>
        have hk : k < rest.length := by simpa using Nat.lt_of_succ_lt_succ hj
        have := hidx k hk
        simpa [nthD, Nat.add_assoc, Nat.add_comm 1 k] using this

/-- If some reachable step's calculation returns `None`, the loop aborts
with a fatal step error at or before that index. -/
theorem runSteps_fatal (apow : Val → Val) (vh ph : List JVal)
    (nX nY nZ : JVal) (tm : String) (ρ : Val) (r g c : Option Val) :
    ∀ (ts : List JVal) (i j : ℕ), j < ts.length →
      FluidCalculators.calculate_fluid_properties_at_timestep apow (i + j)
        (nthD ts j .jnull) vh ph nX nY nZ tm ρ r g c = none →
      ∃ k, k ≤ j ∧ runSteps apow vh ph nX nY nZ tm ρ r g c ts i
        = .error (.stepFatal (i + k)) := by
  intro ts
  induction ts with
  | nil => intro i j hj; simp at hj
  | cons t rest ih =>
    intro i j hj hnone
    cases hc : FluidCalculators.calculate_fluid_properties_at_timestep apow i t
        vh ph nX nY nZ tm ρ r g c with
    | none =>
      refine ⟨0, Nat.zero_le _, ?_⟩
      unfold runSteps
      rw [hc]
      simp
    | some r0 =>
      cases j with
      | zero =>
        exfalso
        have : some r0 = none := by
          rw [← hc, ← hnone]
          simp [nthD]
        simp at this
      | succ k =>
        have hk : k < rest.length := by simpa using Nat.lt_of_succ_lt_succ hj
        obtain ⟨k2, hk2, hrun⟩ := ih (i + 1) k hk (by
          simpa [nthD, Nat.add_assoc, Nat.add_comm 1 k] using hnone)
        refine ⟨k2 + 1, by omega, ?_⟩
        unfold runSteps
        rw [hc, hrun]
        have h3 : i + 1 + k2 = i + (k2 + 1) := by omega
        rw [h3]

end FluidDataProcessor

namespace FluidDataProcessor

/-- After both validations succeed, the pipeline is the derivation loop
followed by the no-valid-steps guard and assembly. -/
theorem process_eq (apow : Val → Val) (fpow : Val → Val → Val)
    (nsd initd : JVal) (tup : NSTuple) (itup : InitTuple)
    (hv : DataValidators.validate_navier_stokes_data nsd = .ok tup)
    (hi : DataValidators.validate_initial_data fpow initd tup.pressure_history
      = .ok itup) :
    process_fluid_data apow fpow nsd initd =
      match runSteps apow tup.velocity_history tup.pressure_history tup.numX
          tup.numY tup.numZ itup.thermo_model itup.initial_density
          itup.R_specific_gas itup.gamma itup.initial_C tup.time_points 0 with
      | .error e => .error e
      | .ok steps =>
        if steps.isEmpty ∧ 0 < tup.time_points.length then
          .error .noValidSteps
        else
          .ok ⟨[tup.numX, tup.numY, tup.numZ], [tup.dx, tup.dy, tup.dz],
               originOf tup.nodes_coords, steps⟩ := by
  unfold process_fluid_data
  simp only [hv, pure_bind]
  simp only [hi, pure_bind]
  cases hr : runSteps apow tup.velocity_history tup.pressure_history tup.numX
      tup.numY tup.numZ itup.thermo_model itup.initial_density
      itup.R_specific_gas itup.gamma itup.initial_C tup.time_points 0 with
  | error e => simp only [hr]; rfl
  | ok steps => simp only [hr]; rfl

/-- A successful pipeline run decomposes into two successful validations, a
successful derivation loop, and the assembly. -/
theorem process_ok_inversion (apow : Val → Val) (fpow : Val → Val → Val)
    (nsd initd : JVal) (out : OutDoc)
    (h : process_fluid_data apow fpow nsd initd = .ok out) :
    ∃ tup itup l,
      DataValidators.validate_navier_stokes_data nsd = .ok tup
      ∧ DataValidators.validate_initial_data fpow initd tup.pressure_history
        = .ok itup
      ∧ runSteps apow tup.velocity_history tup.pressure_history tup.numX
          tup.numY tup.numZ itup.thermo_model itup.initial_density
          itup.R_specific_gas itup.gamma itup.initial_C tup.time_points 0
        = .ok l
      ∧ out = ⟨[tup.numX, tup.numY, tup.numZ], [tup.dx, tup.dy, tup.dz],
          originOf tup.nodes_coords, l⟩ := by
  cases hv : DataValidators.validate_navier_stokes_data nsd with
  | error e =>
    rw [show process_fluid_data apow fpow nsd initd = .error (.nsErr e) from by
      unfold process_fluid_data; simp only [hv]; rfl] at h
    simp at h
  | ok tup =>
  cases hi : DataValidators.validate_initial_data fpow initd
      tup.pressure_history with
  | error e =>
    rw [show process_fluid_data apow fpow nsd initd = .error (.initErr e) from by
      unfold process_fluid_data
      simp only [hv, pure_bind]
      simp only [hi]
      rfl] at h
    simp at h
  | ok itup =>
  rw [process_eq apow fpow nsd initd tup itup hv hi] at h
  cases hr : runSteps apow tup.velocity_history tup.pressure_history tup.numX
      tup.numY tup.numZ itup.thermo_model itup.initial_density
      itup.R_specific_gas itup.gamma itup.initial_C tup.time_points 0 with
  | error e => rw [hr] at h; simp at h
  | ok steps =>
  simp only [hr] at h
  by_cases hg : steps.isEmpty = true ∧ 0 < tup.time_points.length
  · rw [if_pos hg] at h; simp at h
  · rw [if_neg hg] at h
    simp only [Except.ok.injEq] at h
    exact ⟨tup, itup, steps, rfl, hi, hr, h.symm⟩

end FluidDataProcessor

/-- C8: whenever the pipeline returns an output document, the number of
emitted time-step records equals (hence does not exceed) the number of
validated input time points — every step appends exactly one record and any
fatal step aborts the whole run instead. -/
theorem C8_step_count_equality (apow : Val → Val) (fpow : Val → Val → Val)
    (nsd initd : JVal) (tup : NSTuple) (out : OutDoc)
    (hv : DataValidators.validate_navier_stokes_data nsd = .ok tup)
    (hp : FluidDataProcessor.process_fluid_data apow fpow nsd initd = .ok out) :
    out.time_steps.length = tup.time_points.length
    ∧ out.time_steps.length ≤ tup.time_points.length := by
  obtain ⟨tup2, itup, l, hv2, hi, hr, hout⟩ :=
    FluidDataProcessor.process_ok_inversion apow fpow nsd initd out hp
  rw [hv] at hv2
  injection hv2 with h2
  subst h2
  have hlen := FluidDataProcessor.runSteps_ok_length apow tup.velocity_history
    tup.pressure_history tup.numX tup.numY tup.numZ itup.thermo_model
    itup.initial_density itup.R_specific_gas itup.gamma itup.initial_C
    tup.time_points 0 l hr
  subst hout
  exact ⟨by simpa using hlen, by simpa using Nat.le_of_eq hlen⟩

/-- C8 witness: the theorem applied to a concrete single-step run. -/
theorem C8_witness :
    ∃ tup out,
      DataValidators.validate_navier_stokes_data nsIntDoc = .ok tup
      ∧ FluidDataProcessor.process_fluid_data apowStub powStub nsIntDoc
          initIncompDoc = .ok out
      ∧ out.time_steps.length = tup.time_points.length
      ∧ out.time_steps.length ≤ tup.time_points.length :=
  ⟨_, _, rfl, rfl,
    C8_step_count_equality apowStub powStub nsIntDoc initIncompDoc _ _ rfl rfl⟩

/-- C3 (amended): for every record in a returned document, the density,
velocity and temperature arrays have one common length, and that length is
the validated grid size `num_x*num_y*num_z` for populated steps and `0` for
degenerate (empty-input) steps. -/
theorem C3_size_invariant_amended (apow : Val → Val) (fpow : Val → Val → Val)
    (nsd initd : JVal) (tup : NSTuple) (out : OutDoc) (nx ny nz : ℕ)
    (hv : DataValidators.validate_navier_stokes_data nsd = .ok tup)
    (hnx : JVal.pyDim tup.numX = some nx)
    (hny : JVal.pyDim tup.numY = some ny)
    (hnz : JVal.pyDim tup.numZ = some nz)
    (hp : FluidDataProcessor.process_fluid_data apow fpow nsd initd = .ok out) :
    ∀ s ∈ out.time_steps,
      s.density_data.length = s.velocity_data.length
      ∧ s.density_data.length = s.temperature_data.length
      ∧ (s.density_data.length = nx * ny * nz ∨ s.density_data.length = 0) := by
  obtain ⟨tup2, itup, l, hv2, hi, hr, hout⟩ :=
    FluidDataProcessor.process_ok_inversion apow fpow nsd initd out hp
  rw [hv] at hv2
  injection hv2 with h2
  subst h2
  subst hout
  intro s hs
  obtain ⟨j, t, hcalc⟩ := FluidDataProcessor.runSteps_ok_forall apow
    tup.velocity_history tup.pressure_history tup.numX tup.numY tup.numZ
    itup.thermo_model itup.initial_density itup.R_specific_gas itup.gamma
    itup.initial_C tup.time_points 0 l hr s (by simpa using hs)
  exact calc_ok_lengths apow j t tup.velocity_history tup.pressure_history
    tup.numX tup.numY tup.numZ itup.thermo_model itup.initial_density
    itup.R_specific_gas itup.gamma itup.initial_C s nx ny nz hnx hny hnz hcalc

/-- C3 amended witness: the theorem applied to the scenario-E run, whose
surviving records have lengths 1, 1, 0, 1 on the 1x1x1 grid. -/
theorem C3_amended_witness :
    ∃ tup out,
      DataValidators.validate_navier_stokes_data ns4Doc = .ok tup
      ∧ FluidDataProcessor.process_fluid_data apowStub powStub ns4Doc
          initIncompDoc = .ok out
      ∧ ∀ s ∈ out.time_steps,
          s.density_data.length = s.velocity_data.length
          ∧ s.density_data.length = s.temperature_data.length
          ∧ (s.density_data.length = 1 * 1 * 1 ∨ s.density_data.length = 0) :=
  ⟨_, _, rfl, rfl,
    C3_size_invariant_amended apowStub powStub ns4Doc initIncompDoc _ _ 1 1 1
      rfl rfl rfl rfl rfl⟩

/-- C4: on a validated input whose every step computes (no fatal error) and
in which some time step has an empty velocity or pressure payload, the
engine's record for that step is the degenerate one (empty density,
velocity and temperature), the orchestrator appends it and continues, and
the final output has exactly one record per input time point. -/
theorem C4_empty_step_policy (apow : Val → Val) (fpow : Val → Val → Val)
    (nsd initd : JVal) (tup : NSTuple) (itup : InitTuple) (t : ℕ)
    (hv : DataValidators.validate_navier_stokes_data nsd = .ok tup)
    (hi : DataValidators.validate_initial_data fpow initd tup.pressure_history
      = .ok itup)
    (hall : ∀ j, j < tup.time_points.length →
      (FluidCalculators.calculate_fluid_properties_at_timestep apow j
        (nthD tup.time_points j .jnull) tup.velocity_history
        tup.pressure_history tup.numX tup.numY tup.numZ itup.thermo_model
        itup.initial_density itup.R_specific_gas itup.gamma
        itup.initial_C).isSome = true)
    (ht : t < tup.time_points.length)
    (hempty : (jleaves (nthD tup.velocity_history t .jnull)).length = 0
      ∨ (jleaves (nthD tup.pressure_history t .jnull)).length = 0) :
    ∃ out, FluidDataProcessor.process_fluid_data apow fpow nsd initd = .ok out
      ∧ out.time_steps.length = tup.time_points.length
      ∧ ∃ tv, nthD out.time_steps t defaultStep = ⟨tv, t, [], [], []⟩ := by
  obtain ⟨l, hr, hlen, hidx⟩ := FluidDataProcessor.runSteps_all_some apow
    tup.velocity_history tup.pressure_history tup.numX tup.numY tup.numZ
    itup.thermo_model itup.initial_density itup.R_specific_gas itup.gamma
    itup.initial_C tup.time_points 0
    (by intro j hj; simpa using hall j hj)
  have hne : ¬ (l.isEmpty = true ∧ 0 < tup.time_points.length) := by
    rintro ⟨h1, h2⟩
    rw [List.isEmpty_iff] at h1
    subst h1
    simp at hlen
    omega
  refine ⟨⟨[tup.numX, tup.numY, tup.numZ], [tup.dx, tup.dy, tup.dz],
    FluidDataProcessor.originOf tup.nodes_coords, l⟩, ?_, by simpa using hlen,
    ?_⟩
  · rw [FluidDataProcessor.process_eq apow fpow nsd initd tup itup hv hi, hr]
    simp only [hne, if_false]
  · have h1 := hidx t ht
    rw [Nat.zero_add] at h1
    obtain ⟨tv, hsr⟩ := calc_empty_step apow t (nthD tup.time_points t .jnull)
      tup.velocity_history tup.pressure_history tup.numX tup.numY tup.numZ
      itup.thermo_model itup.initial_density itup.R_specific_gas itup.gamma
      itup.initial_C (nthD l t defaultStep) h1.symm hempty
    exact ⟨tv, by simpa using hsr⟩

/-- C4 witness: the theorem applied to the scenario-E input — four time
steps, `velocity_history[2]` empty, output of four records with a
degenerate record at index 2. -/
theorem C4_witness :
    ∃ out, FluidDataProcessor.process_fluid_data apowStub powStub ns4Doc
        initIncompDoc = .ok out
      ∧ out.time_steps.length = 4
      ∧ ∃ tv, nthD out.time_steps 2 defaultStep = ⟨tv, 2, [], [], []⟩ := by
  obtain ⟨out, h1, h2, h3⟩ := C4_empty_step_policy apowStub powStub ns4Doc
    initIncompDoc _ _ 2 rfl rfl (by decide) (by decide) (by decide)
  exact ⟨out, h1, by simpa using h2, h3⟩

/-- C5: if the engine signals a fatal error (returns `None`) for any
reachable time step of a validated input, the orchestrator aborts: the
overall result is a failure value (no partial document), reported at or
before the offending index. -/
theorem C5_fatal_step_aborts (apow : Val → Val) (fpow : Val → Val → Val)
    (nsd initd : JVal) (tup : NSTuple) (itup : InitTuple) (t : ℕ)
    (hv : DataValidators.validate_navier_stokes_data nsd = .ok tup)
    (hi : DataValidators.validate_initial_data fpow initd tup.pressure_history
      = .ok itup)
    (ht : t < tup.time_points.length)
    (hfatal : FluidCalculators.calculate_fluid_properties_at_timestep apow t
      (nthD tup.time_points t .jnull) tup.velocity_history
      tup.pressure_history tup.numX tup.numY tup.numZ itup.thermo_model
      itup.initial_density itup.R_specific_gas itup.gamma itup.initial_C
      = none) :
    ∃ k, k ≤ t ∧ FluidDataProcessor.process_fluid_data apow fpow nsd initd
      = .error (.stepFatal k) := by
  obtain ⟨k, hk, hrun⟩ := FluidDataProcessor.runSteps_fatal apow
    tup.velocity_history tup.pressure_history tup.numX tup.numY tup.numZ
    itup.thermo_model itup.initial_density itup.R_specific_gas itup.gamma
    itup.initial_C tup.time_points 0 t ht (by simpa using hfatal)
  rw [Nat.zero_add] at hrun
  refine ⟨k, hk, ?_⟩
  rw [FluidDataProcessor.process_eq apow fpow nsd initd tup itup hv hi, hrun]

/-- C5 witness: the theorem applied to a concrete input whose step 1 has a
reshape size mismatch (two velocity vectors on a one-node grid). -/
theorem C5_witness :
    ∃ k, k ≤ 1 ∧ FluidDataProcessor.process_fluid_data apowStub powStub
      nsBadStepDoc initIncompDoc = .error (.stepFatal k) :=
  C5_fatal_step_aborts apowStub powStub nsBadStepDoc initIncompDoc _ _ 1
    rfl rfl (by decide) rfl

/-- A value passing `isinstance and > 0` is numeric and `> 0`. -/
theorem pyNumGtZero_pos {j : JVal} (h : JVal.pyNumGtZero j = true) :
    ∃ v, JVal.jnumVal j = some v ∧ Val.lt (.vf 0) v = true := by
  cases j <;> simp_all [JVal.pyNumGtZero, JVal.jnumVal, Val.lt, Val.toQ]

/-- A strictly positive value is numerically different from zero. -/
theorem pos_numEq_zero_false {v : Val} (h : Val.lt (.vf 0) v = true) :
    v.numEq (.vf 0) = false := by
  cases v <;> simp_all [Val.lt, Val.numEq, Val.toQ]
  case vi n => omega
  case vf q => linarith
  case vb b => cases b <;> simp_all

/-- Summing finite values from a finite float accumulator stays finite. -/
theorem foldl_fadd_finite (ps : List Val)
    (hfin : ∀ v ∈ ps, (v.isNaN || v.isInfinite) = false) :
    ∀ a : ℚ, ∃ S : ℚ, ps.foldl Val.fadd (.vf a) = .vf S := by
  induction ps with
  | nil => intro a; exact ⟨a, rfl⟩
  | cons x xs ih =>
    intro a
    have hx := hfin x (by simp)
    have hxs : ∀ v ∈ xs, (v.isNaN || v.isInfinite) = false := by
      intro v hv; exact hfin v (by simp [hv])
    cases x with
    | vi n => simpa [Val.fadd, Val.toQ] using ih hxs (a + n)
    | vf q => simpa [Val.fadd, Val.toQ] using ih hxs (a + q)
    | vb b =>
      cases b with
      | false => simpa [Val.fadd, Val.toQ] using ih hxs (a + 0)
      | true => simpa [Val.fadd, Val.toQ] using ih hxs (a + 1)
    | nan => simp [Val.isNaN] at hx
    | inf => simp [Val.isInfinite] at hx
    | ninf => simp [Val.isInfinite] at hx

/-- The mean of a non-empty list of finite values is a finite float. -/
theorem npMean_finite (ps : List Val) (hne : ps.length ≠ 0)
    (hfin : ∀ v ∈ ps, (v.isNaN || v.isInfinite) = false) :
    ∃ q : ℚ, npMean ps = .vf q := by
  obtain ⟨S, hS⟩ := foldl_fadd_finite ps hfin 0
  refine ⟨S / ps.length, ?_⟩
  have hn0 : (ps.length : ℚ) ≠ 0 := by exact_mod_cast hne
  simp [npMean, hS, Val.fdiv, Val.isNaN, Val.toQ, hn0]

/-- A finite float failing `x <= 0` is strictly positive. -/
theorem le_zero_false_pos {q : ℚ} (h : Val.le (.vf q) (.vf 0) = false) :
    0 < q := by
  simp [Val.le, Val.lt, Val.numEq, Val.toQ] at h
  rcases h with ⟨h1, h2⟩
  exact lt_of_le_of_ne h1 (Ne.symm h2)

/-- Dividing positive finite floats gives a positive float. -/
theorem fdiv_pos {q w : ℚ} (hq : 0 < q) (hw : 0 < w) :
    Val.lt (.vf 0) (Val.fdiv (.vf q) (.vf w)) = true := by
  have hw0 : w ≠ 0 := ne_of_gt hw
  simp [Val.fdiv, Val.isNaN, Val.toQ, hw0, Val.lt]
  positivity

/-- Monad-reduction helpers for `Except`, used to invert the validators. -/
theorem except_bind_ok {ε α β : Type} (a : α) (f : α → Except ε β) :
    (Except.ok a >>= f : Except ε β) = f a := rfl

theorem except_bind_error {ε α β : Type} (e : ε) (f : α → Except ε β) :
    (Except.error e >>= f : Except ε β) = Except.error e := rfl

theorem except_throw {ε α : Type} (e : ε) :
    (throw e : Except ε α) = Except.error e := rfl

theorem except_pure {ε α : Type} (a : α) :
    (pure a : Except ε α) = Except.ok a := rfl

set_option maxHeartbeats 2000000 in
/-- C9 (amended): for every initial-conditions document and pressure
history accepted by `validate_initial_data` with the ideal-gas model,
*provided* the first pressure record is free of NaN and infinities and the
float power `initial_density ** gamma` evaluates to a finite positive
value, the returned constants satisfy `R > 0`, `gamma > 0` and
`initial_C > 0`, and none of them is numerically zero — so the engine's
guard branches for invalid constants cannot fire.  (Without the NaN-free
proviso the claim fails: see the counterexample.) -/
theorem C9_positive_constants_amended (fpow : Val → Val → Val) (initd : JVal)
    (ph : List JVal) (t : InitTuple) (ps : List Val)
    (hok : DataValidators.validate_initial_data fpow initd ph = .ok t)
    (hmodel : t.thermo_model = "ideal_gas")
    (hps : jnumList (jleaves (nthD ph 0 .jnull)) = some ps)
    (hfin : ∀ v ∈ ps, (v.isNaN || v.isInfinite) = false)
    (hfpow : ∀ a b, ∃ w : ℚ, 0 < w ∧ fpow a b = .vf w) :
    ∃ rv gv cv,
      t.R_specific_gas = some rv ∧ Val.lt (.vf 0) rv = true
      ∧ t.gamma = some gv ∧ Val.lt (.vf 0) gv = true
      ∧ t.initial_C = some cv ∧ Val.lt (.vf 0) cv = true
      ∧ rv.numEq (.vf 0) = false ∧ gv.numEq (.vf 0) = false
      ∧ cv.numEq (.vf 0) = false := by
  unfold DataValidators.validate_initial_data at hok
  simp only [DataValidators.reqI] at hok
  cases h1 : JVal.pyIn "fluid_properties" initd with
  | none => rw [h1] at hok; simp [except_bind_error] at hok
  | some b1 =>
  rw [h1] at hok
  cases b1 with
  | false => simp [except_bind_ok, except_throw, except_bind_error] at hok
  | true =>
  simp only [except_bind_ok, if_true, pure_bind, Bool.true_eq_false,
    if_false] at hok
  cases h2 : JVal.pySub initd "fluid_properties" with
  | none => rw [h2] at hok; simp [except_bind_error] at hok
  | some fp =>
  rw [h2] at hok
  simp only [except_bind_ok] at hok
  cases h3 : JVal.pyIn "density" fp with
  | none => rw [h3] at hok; simp [except_bind_error] at hok
  | some b3 =>
  rw [h3] at hok
  cases b3 with
  | false => simp [except_bind_ok, except_throw, except_bind_error] at hok
  | true =>
  simp only [except_bind_ok, if_true, pure_bind, Bool.true_eq_false,
    if_false] at hok
  cases h4 : JVal.pySub fp "density" with
  | none => rw [h4] at hok; simp [except_bind_error] at hok
  | some denJ =>
  rw [h4] at hok
  simp only [except_bind_ok] at hok
  cases h5 : JVal.jnumVal denJ with
  | none => rw [h5] at hok; simp [except_throw, except_bind_error] at hok
  | some ρ =>
  rw [h5] at hok
  simp only [pure_bind] at hok
  by_cases h6 : ρ.le (.vf 0) = true
  · simp [h6, except_throw, except_bind_error] at hok
  rw [if_neg h6] at hok
  have hobj : ∃ kvs, JVal.pyGet fp "thermodynamics" (.jobj []) = .jobj kvs := by
    cases hth : JVal.pyGet fp "thermodynamics" (.jobj []) <;>
      first
        | exact ⟨_, rfl⟩
        | (rw [hth] at hok; simp [except_throw, except_bind_error] at hok)
  obtain ⟨kvs, hth⟩ := hobj
  rw [hth] at hok
  simp only [if_true, pure_bind, Bool.true_eq_false, if_false] at hok
  have hstr : ∃ s, JVal.pyGet (.jobj kvs) "model" (.jstr "") = .jstr s := by
    cases hmo : JVal.pyGet (.jobj kvs) "model" (.jstr "") <;>
      first
        | exact ⟨_, rfl⟩
        | (rw [hmo] at hok; simp [except_throw, except_bind_error] at hok)
  obtain ⟨s, hmo⟩ := hstr
  rw [hmo] at hok
  simp only [pure_bind] at hok
  by_cases hid : pyLower s = "ideal_gas"
  case neg =>
    rw [if_neg hid] at hok
    by_cases hinc : pyLower s = "incompressible"
    case pos =>
      rw [if_pos hinc] at hok
      simp only [except_pure, Except.ok.injEq] at hok
      subst hok
      simp at hmodel
      rw [hmodel] at hinc
      simp at hinc
    case neg =>
      rw [if_neg hinc] at hok
      simp [except_throw] at hok
  case pos =>
  rw [if_pos hid] at hok
  cases h9 : JVal.pyIn "specific_gas_constant_J_per_kgK" (JVal.jobj kvs) with
  | none => rw [h9] at hok; simp [except_bind_error] at hok
  | some b9 =>
  rw [h9] at hok
  cases b9 with
  | false => simp [except_bind_ok, except_throw, except_bind_error] at hok
  | true =>
  simp only [except_bind_ok, if_true, pure_bind, Bool.true_eq_false,
    if_false] at hok
  cases h10 : JVal.pyIn "adiabatic_index_gamma" (JVal.jobj kvs) with
  | none => rw [h10] at hok; simp [except_bind_error] at hok
  | some b10 =>
  rw [h10] at hok
  cases b10 with
  | false => simp [except_bind_ok, except_throw, except_bind_error] at hok
  | true =>
  simp only [except_bind_ok, if_true, pure_bind, Bool.true_eq_false,
    if_false] at hok
  cases h11 : JVal.pySub (.jobj kvs) "specific_gas_constant_J_per_kgK" with
  | none => rw [h11] at hok; simp [except_bind_error] at hok
  | some rJ =>
  rw [h11] at hok
  simp only [except_bind_ok] at hok
  cases h12 : JVal.pySub (.jobj kvs) "adiabatic_index_gamma" with
  | none => rw [h12] at hok; simp [except_bind_error] at hok
  | some gJ =>
  rw [h12] at hok
  simp only [except_bind_ok] at hok
  by_cases h13 : (JVal.pyNumGtZero rJ && JVal.pyNumGtZero gJ) = true
  case neg =>
    simp only [h13, Bool.false_eq_true, if_false] at hok
    simp [except_throw, except_bind_error] at hok
  case pos =>
  simp only [h13, if_true, pure_bind, Bool.true_eq_false, if_false] at hok
  obtain ⟨hr, hg⟩ := Bool.and_eq_true_iff.mp h13
  obtain ⟨rv, hrv, hrvpos⟩ := pyNumGtZero_pos hr
  obtain ⟨gv, hgv, hgvpos⟩ := pyNumGtZero_pos hg
  rw [hrv, hgv] at hok
  simp only [except_bind_ok] at hok
  cases ph with
  | nil => simp [except_throw, except_bind_error] at hok
  | cons p0 rest =>
  simp only at hok
  have hp0 : nthD (p0 :: rest) 0 .jnull = p0 := by simp [nthD]
  rw [hp0] at hps
  cases h16 : JVal.pyLen p0 with
  | none => rw [h16] at hok; simp [except_bind_error] at hok
  | some l0 =>
  rw [h16] at hok
  simp only [except_bind_ok] at hok
  by_cases h17 : l0 = 0
  · simp [h17, except_throw, except_bind_error] at hok
  rw [if_neg h17] at hok
  cases h18 : JVal.npShape p0 with
  | none => rw [h18] at hok; simp [except_throw, except_bind_error] at hok
  | some shp =>
  rw [h18] at hok
  simp only [Option.isSome_some, if_true, pure_bind, Bool.true_eq_false,
    if_false] at hok
  rw [hps] at hok
  simp only [except_bind_ok] at hok
  by_cases h20 : ps.length = 0
  · simp [h20, except_throw, except_bind_error] at hok
  rw [if_neg h20] at hok
  by_cases h21 : (npMean ps).le (.vf 0) = true
  · simp [h21, except_throw, except_bind_error] at hok
  rw [if_neg h21] at hok
  simp only [except_pure, Except.ok.injEq] at hok
  subst hok
  obtain ⟨q, hq⟩ := npMean_finite ps h20 hfin
  obtain ⟨w, hwpos, hw⟩ := hfpow ρ gv
  have hqpos : 0 < q := by
    apply le_zero_false_pos
    rw [← hq]
    simpa using h21
  refine ⟨rv, gv, Val.fdiv (npMean ps) (fpow ρ gv), rfl, hrvpos, rfl,
    hgvpos, rfl, ?_, pos_numEq_zero_false hrvpos,
    pos_numEq_zero_false hgvpos, ?_⟩
  · rw [hq, hw]
    exact fdiv_pos hqpos hwpos
  · apply pos_numEq_zero_false
    rw [hq, hw]
    exact fdiv_pos hqpos hwpos


/-- C9 amended witness: the theorem applied to the concrete ideal-gas
document with first pressures `[4.0]` and a constant-`1.0` power. -/
theorem C9_amended_witness :
    ∃ t2, DataValidators.validate_initial_data powStub initIdealDoc
        [.jarr [.jfloat 4]] = .ok t2
      ∧ ∃ rv gv cv,
        t2.R_specific_gas = some rv ∧ Val.lt (.vf 0) rv = true
        ∧ t2.gamma = some gv ∧ Val.lt (.vf 0) gv = true
        ∧ t2.initial_C = some cv ∧ Val.lt (.vf 0) cv = true
        ∧ rv.numEq (.vf 0) = false ∧ gv.numEq (.vf 0) = false
        ∧ cv.numEq (.vf 0) = false :=
  ⟨_, rfl, C9_positive_constants_amended powStub initIdealDoc
    [.jarr [.jfloat 4]] _ [.vf 4] rfl rfl rfl (by decide)
    (fun a b => ⟨1, by norm_num, rfl⟩)⟩


/-! ### C10: the strict validator refines the permissive one -/

/-- `isinstance(x, list)` destructuring succeeds exactly on lists. -/
theorem asList_eq_jarr {v : JVal} {xs : List JVal}
    (h : JVal.asList v = some xs) : v = .jarr xs := by
  cases v <;> simp [JVal.asList] at h
  subst h; rfl

/-- A non-empty flattened array comes from a non-empty outer list
(`time_points.size != 0` implies `len(time_points) != 0`). -/
theorem jarr_len_ne_zero {tps : List JVal}
    (h : (jleaves (.jarr tps)).length ≠ 0) : tps.length ≠ 0 := by
  intro h0
  rw [List.length_eq_zero] at h0
  subst h0
  simp [jleaves, jleavesList] at h

/-- Entries passing the strict grid check (`isinstance(d, int) and d > 0`)
also pass the permissive one (`d > 0`), which then cannot raise. -/
theorem allIntPos_gtZero : ∀ {gss : List JVal},
    gss.all JVal.isIntPos = true → JVal.allGtZeroList gss = some true := by
  intro gss
  induction gss with
  | nil => intro _; rfl
  | cons x xs ih =>
    intro h
    rw [List.all_cons, Bool.and_eq_true_iff] at h
    obtain ⟨hx, hxs⟩ := h
    have hx2 : JVal.pyGtZero x = some true := by
      cases x <;> simp [JVal.isIntPos, JVal.pyGtZero] at hx ⊢ <;> exact hx
    simp [JVal.allGtZeroList, hx2, ih hxs]

set_option maxHeartbeats 1000000 in
/-- C10 (amended): the refinement holds in one direction only.  Whenever
`navier_stokes_validator.validate_navier_stokes_data` accepts a document,
`data_validators.validate_navier_stokes_data` accepts it too and extracts
exactly the same tuple of validated values (the strict validator adds the
isinstance checks and the integer grid-entry requirement but weakens
nothing); the converse fails per the C10 counterexample. -/
theorem C10_refinement_amended (d : JVal) (tup : NSTuple)
    (h : NavierStokesValidator.validate_navier_stokes_data d = .ok tup) :
    DataValidators.validate_navier_stokes_data d = .ok tup := by
  unfold NavierStokesValidator.validate_navier_stokes_data at h
  split at h <;> try exact Except.noConfusion h
  rename_i e1
  split at h <;> try exact Except.noConfusion h
  rename_i tpJ e2
  split at h <;> try exact Except.noConfusion h
  rename_i tps e3
  split at h <;> try exact Except.noConfusion h
  rename_i e4
  split at h <;> try exact Except.noConfusion h
  rename_i e5
  split at h <;> try exact Except.noConfusion h
  rename_i e6
  split at h <;> try exact Except.noConfusion h
  rename_i mesh e7
  split at h <;> try exact Except.noConfusion h
  rename_i mobj e8
  split at h <;> try exact Except.noConfusion h
  rename_i e9
  split at h <;> try exact Except.noConfusion h
  rename_i e10
  split at h <;> try exact Except.noConfusion h
  rename_i e11
  split at h <;> try exact Except.noConfusion h
  rename_i e12
  split at h <;> try exact Except.noConfusion h
  rename_i e13
  split at h <;> try exact Except.noConfusion h
  rename_i nodesJ e14
  split at h <;> try exact Except.noConfusion h
  rename_i ncl e15
  split at h <;> try exact Except.noConfusion h
  rename_i nodesShape e16
  split at h <;> try exact Except.noConfusion h
  rename_i gsJ e17
  split at h <;> try exact Except.noConfusion h
  rename_i gss e18
  split at h <;> try exact Except.noConfusion h
  rename_i dxJ e19
  split at h <;> try exact Except.noConfusion h
  rename_i dyJ e20
  split at h <;> try exact Except.noConfusion h
  rename_i dzJ e21
  split at h <;> try exact Except.noConfusion h
  rename_i e22
  split at h <;> try exact Except.noConfusion h
  rename_i vhJ e23
  split at h <;> try exact Except.noConfusion h
  rename_i vhs e24
  split at h <;> try exact Except.noConfusion h
  rename_i e25
  split at h <;> try exact Except.noConfusion h
  rename_i phJ e26
  split at h <;> try exact Except.noConfusion h
  rename_i phs e27
  split at h <;> try exact Except.noConfusion h
  rename_i e28
  split at h <;> try exact Except.noConfusion h
  rename_i e29
  split at h <;> try exact Except.noConfusion h
  rename_i e30
  split at h <;> try exact Except.noConfusion h
  rename_i e31
  split at h <;> try exact Except.noConfusion h
  rename_i e32
  split at h <;> try exact Except.noConfusion h
  rename_i gz gy gx e33
  split at h <;> try exact Except.noConfusion h
  rename_i e34
  split at h <;> try exact Except.noConfusion h
  rename_i vx e35
  split at h <;> try exact Except.noConfusion h
  rename_i vy e36
  split at h <;> try exact Except.noConfusion h
  rename_i vz e37
  split at h <;> try exact Except.noConfusion h
  rename_i n0 nrest e38
  split at h <;> try exact Except.noConfusion h
  rename_i e39
  split at h <;> try exact Except.noConfusion h
  rename_i n1 ntail e40
  split at h <;> try exact Except.noConfusion h
  rename_i e41
  injection h with h
  subst h
  obtain rfl := asList_eq_jarr e3
  obtain rfl := asList_eq_jarr e18
  obtain rfl := asList_eq_jarr e24
  obtain rfl := asList_eq_jarr e27
  have e5' : tps.length ≠ 0 := jarr_len_ne_zero e5
  have hsplit := Bool.and_eq_true_iff.mp (Bool.ne_false_iff.mp e32)
  have h3 : gss.length = 3 := of_decide_eq_true hsplit.1
  have hgt : JVal.allGtZeroList gss = some true := allIntPos_gtZero hsplit.2
  unfold DataValidators.validate_navier_stokes_data
  simp only [e1]
  simp only [e2]
  simp only [JVal.asList]
  rw [if_neg e4]
  rw [if_neg e5']
  simp only [e6, e7, e9, e10, e11, e12, e13, e14, e16, e17, e19, e20, e21,
    e22, e23, e25, e26]
  simp only [JVal.pyLen]
  rw [if_neg e28]
  rw [if_neg e29]
  simp only [e30, e31]
  rw [if_neg (fun hn => hn h3)]
  simp only [JVal.pyAllGtZero, hgt]
  simp only [e33]
  rw [if_neg e34]
  simp only [e35, e36, e37]
  rw [if_neg e39]
  rw [if_neg e41]

/-- C10 amended witness: both validators accept `nsIntDoc` and extract the
same tuple. -/
theorem C10_amended_witness :
    DataValidators.validate_navier_stokes_data nsIntDoc =
      .ok ⟨[.jfloat 0], .jarr [node0], [.jint 1, .jint 1, .jint 1],
           .jfloat 1, .jfloat 1, .jfloat 1, [vel1], [.jarr [.jint 100]],
           .jint 1, .jint 1, .jint 1⟩ :=
  C10_refinement_amended nsIntDoc _ rfl
